import Mathlib

/-!
Verification of the psychroflow repository's state-resolution and
flow-mixing engine against its specification.

The Python sources are shallowly embedded over exact rationals (ℚ):
machine floats become exact rational arithmetic, decimal literals become
the corresponding rationals, and Python exceptions become an explicit
`Except` result.  The transcendental closed-form correlations
(saturation vapour pressure via `exp`, liquid-water density via cube
roots) and the bracketed scipy root-finders are not elementary over ℚ;
they are abstracted as parameters collected in a `Corr` ("correlations")
structure, so every theorem quantifies over them and concrete witnesses
instantiate them with simple rational functions.  Everything that is
polynomial or rational in the source (enthalpy correlations, humidity
ratio algebra, mass bookkeeping, validation checks, `math.isclose`) is
embedded exactly.

Two generations of the engine exist in the repository and both are
embedded, in separate namespaces:
 * namespace `PF` — the standalone `psychroflow.py` module
   (HumidAirState / HumidAirFlow / WaterState / WaterFlow /
   AirWaterFlow and the mixing routines);
 * namespace `PS` — the newer `psychrostate.py` + `waterstate.py` state
   layer (HumidAirState factories, extended saturation-pressure domain,
   equilibrium enthalpy with an ice branch).
-/

/-- Python `math.isclose` with its default tolerances
(`rel_tol = 1e-9`, `abs_tol = 0.0`):
`abs(a-b) <= max(rel_tol * max(abs(a), abs(b)), abs_tol)`. -/
def isclose (a b : ℚ) : Prop :=
  |a - b| ≤ 0.000000001 * max |a| |b|

instance (a b : ℚ) : Decidable (isclose a b) := by
  unfold isclose; infer_instance

theorem isclose_self (a : ℚ) : isclose a a := by
  unfold isclose
  simp
  positivity

theorem isclose_zero_right_iff {a : ℚ} : isclose a 0 ↔ a = 0 := by
  unfold isclose
  constructor
  · intro h
    by_contra hne
    have habs : 0 < |a| := abs_pos.mpr hne
    simp only [sub_zero, abs_zero, max_eq_left (abs_nonneg a)] at h
    nlinarith
  · intro h; subst h; simp

theorem isclose_zero_left_iff {a : ℚ} : isclose 0 a ↔ a = 0 := by
  unfold isclose
  constructor
  · intro h
    by_contra hne
    have habs : 0 < |a| := abs_pos.mpr hne
    simp only [zero_sub, abs_neg, abs_zero, max_eq_right (abs_nonneg a)] at h
    nlinarith
  · intro h; subst h; simp

/-- Explicit error-propagating bind for `Except`; Python's exception
propagation through a sequence of statements. -/
def bindE {ε α β : Type} (x : Except ε α) (f : α → Except ε β) : Except ε β :=
  match x with
  | .error e => .error e
  | .ok a => f a

@[simp] theorem bindE_ok {ε α β : Type} (a : α) (f : α → Except ε β) :
    bindE (.ok a) f = f a := rfl

@[simp] theorem bindE_error {ε α β : Type} (e : ε) (f : α → Except ε β) :
    bindE (ε := ε) (.error e) f = .error e := rfl

theorem bindE_ne_error {ε α β : Type} {x : Except ε α} {f : α → Except ε β}
    {e : ε} (hx : x ≠ .error e) (hf : ∀ a, f a ≠ .error e) :
    bindE x f ≠ .error e := by
  cases x with
  | error e₂ =>
      simpa [bindE] using hx
  | ok a => simpa [bindE] using hf a

/-- Discriminator for successful results. -/
def isOk {ε α : Type} : Except ε α → Bool
  | .ok _ => true
  | .error _ => false

instance {ε α : Type} [DecidableEq ε] [DecidableEq α] :
    DecidableEq (Except ε α) := fun x y =>
  match x, y with
  | .ok a, .ok b =>
      match decEq a b with
      | isTrue h => isTrue (by rw [h])
      | isFalse h => isFalse (by intro hc; injection hc; contradiction)
  | .ok _, .error _ => isFalse (by intro hc; injection hc)
  | .error _, .ok _ => isFalse (by intro hc; injection hc)
  | .error e, .error e₂ =>
      match decEq e e₂ with
      | isTrue h => isTrue (by rw [h])
      | isFalse h => isFalse (by intro hc; injection hc; contradiction)

namespace PF

/-!
Embedding of the standalone `psychroflow.py` module.
-/

/-- Messages of the `ValueError`/`ArithmeticError` exceptions raised in
`psychroflow.py`, one constructor per distinct message string. -/
inductive Msg : Type
  /-- "Wet bulb temperature is above dry bulb temperature" -/
  | wetBulbAboveDry
  /-- "Invalid temperature range -50<=t<=150 ([t]=°C)" -/
  | tempRangeSatVap
  /-- "Partial pressure of water vapor in moist air cannot be negative" -/
  | negVapPres
  /-- "Relative humidity is outside range [0, 1]" -/
  | relHumRange
  /-- "Humidity ratio can not be negative" (in `get_vap_press_from_hum_ratio`) -/
  | negHumRatioVapPress
  /-- "Humidity ratio cannot be negative" -/
  | negHumRatio
  /-- "sat_vap_pressure > pressure; no saturation possible" -/
  | noSaturation
  /-- "Temperature of air- and waterflow must be equal!" -/
  | tempAirWaterMismatch
  /-- "Pressure of air- and waterflow must be equal!" -/
  | pressureAirWaterMismatch
  /-- "Air over liquid water has to be saturated" -/
  | airOverWaterNotSaturated
  /-- "Temperature range: 0.01 °C < T < 150 °C" (liquid water correlations) -/
  | tempRangeWater
  /-- "The pressure of the mixing air streams must be equal" -/
  | pressureMixMismatch
  /-- "Condensation" (raised by `mix_two_humid_air_flows`) -/
  | condensation
  /-- "Root not converged: " / "Root not found: " -/
  | rootNotConverged
  deriving DecidableEq

/-- Python exceptions raised by `psychroflow.py`: `ValueError` with a
message, `ZeroDivisionError` from a float division by zero, and
`ArithmeticError` from a failed root search. -/
inductive Err : Type
  | valueError (m : Msg)
  | zeroDivision
  | arithmeticError (m : Msg)
  | indexError
  deriving DecidableEq

/-- Abstracted non-elementary ingredients of `psychroflow.py`: the
closed-form saturation-vapour-pressure correlation (an `exp` of a
polynomial in reduced temperature), the liquid-water density correlation
(rational powers), and the value returned by the bracketed
`scipy.optimize.root_scalar` call in
`get_temp_from_tot_enthalpy_air_water_mix`.  The root-finder is modelled
as a total oracle `(hum_ratio, tot_enthalpy, pressure) ↦ t`; theorems
that depend on it being a root state that as an explicit hypothesis. -/
structure Corr : Type where
  satVapExp : ℚ → ℚ
  densityLiquid : ℚ → ℚ
  dewPoint : ℚ → ℚ
  tempFromTotEnthalpy : ℚ → ℚ → ℚ → ℚ

/-- Closed-form body of `get_moist_air_enthalpy` (J per kg dry air):
`(1.0046*(t - 0.01) + hr*(2500.9 + 1.863*(t - 0.01))) * 1e3`. -/
def moistF (t_dry_bulb hum_ratio : ℚ) : ℚ :=
  (1.0046 * (t_dry_bulb - 0.01)
    + hum_ratio * (2500.9 + 1.863 * (t_dry_bulb - 0.01))) * 1000

/-- Closed-form body of `get_moist_air_volume` (m³ per kg dry air). -/
def volF (t_dry_bulb hum_ratio pressure : ℚ) : ℚ :=
  287.05 * (t_dry_bulb + 273.15) / pressure * (1 + hum_ratio / 0.621945)

/-- Closed-form body of `get_vap_press_from_hum_ratio`. -/
def vapF (hum_ratio pressure : ℚ) : ℚ :=
  pressure * hum_ratio / (0.621945 + hum_ratio)

/-- Closed-form body of `get_enthalpy_water` (Popiel–Wojtkowiak liquid
water enthalpy polynomial, J/kg). -/
def enthWaterF (t : ℚ) : ℚ :=
  (-0.02844699 + 4.211925 * t + -0.001017034 * t ^ 2 + 0.00001311054 * t ^ 3
    + -0.00000006756469 * t ^ 4 + 0.0000000001724481 * t ^ 5) * 1000

/-- Embedding of `psychroflow.get_sat_vap_pressure`: domain check
`-50 <= t <= 150`, then the abstracted closed-form correlation. -/
def get_sat_vap_pressure (C : Corr) (t_dry_bulb : ℚ) : Except Err ℚ :=
  if t_dry_bulb < -50 ∨ 150 < t_dry_bulb then
    .error (.valueError .tempRangeSatVap)
  else
    .ok (C.satVapExp t_dry_bulb)

/-- Embedding of `psychroflow.get_t_dew_point_from_vap_pressure` for a
non-negative vapour pressure: below the saturation pressure at −50 °C the
code warns and returns −50, otherwise the bracketed root search (modelled
by the `dewPoint` oracle) supplies the dew point. -/
def dew_point_val (C : Corr) (vap_pres : ℚ) : ℚ :=
  if vap_pres < C.satVapExp (-50) then -50 else C.dewPoint vap_pres

/-- Embedding of `psychroflow.get_t_dew_point_from_vap_pressure`. -/
def get_t_dew_point_from_vap_pressure (C : Corr) (vap_pres : ℚ) : Except Err ℚ :=
  if vap_pres < 0 then .error (.valueError .negVapPres)
  else .ok (dew_point_val C vap_pres)

/-- Embedding of `psychroflow.get_vap_pres_from_rel_hum`. -/
def get_vap_pres_from_rel_hum (C : Corr) (t_dry_bulb rel_hum : ℚ) : Except Err ℚ :=
  if rel_hum < 0 ∨ 1 < rel_hum then .error (.valueError .relHumRange)
  else bindE (get_sat_vap_pressure C t_dry_bulb) fun s => .ok (rel_hum * s)

/-- Embedding of `psychroflow.get_hum_ratio_from_vap_press`; the division
by `pressure - vap_pres` raises `ZeroDivisionError` when the denominator
is zero. -/
def get_hum_ratio_from_vap_press (vap_pres pressure : ℚ) : Except Err ℚ :=
  if vap_pres < 0 then .error (.valueError .negVapPres)
  else if pressure - vap_pres = 0 then .error .zeroDivision
  else .ok (0.621945 * vap_pres / (pressure - vap_pres))

/-- Embedding of `psychroflow.get_vap_press_from_hum_ratio`. -/
def get_vap_press_from_hum_ratio (hum_ratio pressure : ℚ) : Except Err ℚ :=
  if hum_ratio < 0 then .error (.valueError .negHumRatioVapPress)
  else if (0.621945 : ℚ) + hum_ratio = 0 then .error .zeroDivision
  else .ok (vapF hum_ratio pressure)

/-- Embedding of `psychroflow.get_hum_ratio_from_rel_hum`. -/
def get_hum_ratio_from_rel_hum (C : Corr) (t_dry_bulb rel_hum pressure : ℚ) :
    Except Err ℚ :=
  if rel_hum < 0 ∨ 1 < rel_hum then .error (.valueError .relHumRange)
  else
    bindE (get_vap_pres_from_rel_hum C t_dry_bulb rel_hum) fun vp =>
      get_hum_ratio_from_vap_press vp pressure

/-- Embedding of `psychroflow.get_moist_air_enthalpy`. -/
def get_moist_air_enthalpy (t_dry_bulb hum_ratio : ℚ) : Except Err ℚ :=
  if hum_ratio < 0 then .error (.valueError .negHumRatio)
  else .ok (moistF t_dry_bulb hum_ratio)

/-- Embedding of `psychroflow.get_moist_air_volume`. -/
def get_moist_air_volume (t_dry_bulb hum_ratio pressure : ℚ) : Except Err ℚ :=
  if hum_ratio < 0 then .error (.valueError .negHumRatio)
  else if pressure = 0 then .error .zeroDivision
  else .ok (volF t_dry_bulb hum_ratio pressure)

/-- Embedding of `psychroflow.get_sat_hum_ratio`: this (older) version
raises when the saturation vapour pressure exceeds the total pressure. -/
def get_sat_hum_ratio (C : Corr) (t_dry_bulb pressure : ℚ) : Except Err ℚ :=
  bindE (get_sat_vap_pressure C t_dry_bulb) fun s =>
    if pressure < s then .error (.valueError .noSaturation)
    else if pressure - s = 0 then .error .zeroDivision
    else .ok (0.621945 * s / (pressure - s))

/-- Embedding of `psychroflow.get_rel_hum_from_vap_pressure`. -/
def get_rel_hum_from_vap_pressure (C : Corr) (t_dry_bulb vap_pres : ℚ) :
    Except Err ℚ :=
  if vap_pres < 0 then .error (.valueError .negVapPres)
  else
    bindE (get_sat_vap_pressure C t_dry_bulb) fun s =>
      if s = 0 then .error .zeroDivision
      else .ok (vap_pres / s)

/-- Embedding of `psychroflow.get_enthalpy_water` (liquid only; raises
outside 0.01 °C ≤ t ≤ 150 °C). -/
def get_enthalpy_water (t : ℚ) : Except Err ℚ :=
  if t < 0.01 ∨ 150 < t then .error (.valueError .tempRangeWater)
  else .ok (enthWaterF t)

/-- Embedding of `psychroflow.get_density_water` (liquid only; raises
outside 0.01 °C ≤ t ≤ 150 °C); the correlation body is abstracted. -/
def get_density_water (C : Corr) (t : ℚ) : Except Err ℚ :=
  if t < 0.01 ∨ 150 < t then .error (.valueError .tempRangeWater)
  else .ok (C.densityLiquid t)

/-- The `psychroflow.HumidAirState` dataclass. -/
structure HumidAirState : Type where
  pressure : ℚ
  hum_ratio : ℚ
  t_dry_bulb : ℚ
  t_dew_point : ℚ
  rel_hum : ℚ
  vap_pres : ℚ
  moist_air_enthalpy : ℚ
  moist_air_volume : ℚ
  deriving DecidableEq

/-- Embedding of `psychroflow.HumidAirState.from_t_dry_bulb_rel_hum`.
The guard `if 0 > rel_hum > 1` is Python's chained comparison
`0 > rel_hum and rel_hum > 1`, which is never true; it is embedded
faithfully. -/
def HumidAirState.from_t_dry_bulb_rel_hum (C : Corr)
    (t_dry_bulb rel_hum pressure : ℚ) : Except Err HumidAirState :=
  if 0 > rel_hum ∧ rel_hum > 1 then .error (.valueError .wetBulbAboveDry)
  else
    bindE (get_hum_ratio_from_rel_hum C t_dry_bulb rel_hum pressure) fun hr =>
    bindE (get_vap_press_from_hum_ratio hr pressure) fun vp =>
    bindE (get_t_dew_point_from_vap_pressure C vp) fun td =>
    bindE (get_moist_air_enthalpy t_dry_bulb hr) fun h =>
    bindE (get_moist_air_volume t_dry_bulb hr pressure) fun v =>
    .ok ⟨pressure, hr, t_dry_bulb, td, rel_hum, vp, h, v⟩

/-- Embedding of `psychroflow.HumidAirState.from_t_dry_bulb_hum_ratio`. -/
def HumidAirState.from_t_dry_bulb_hum_ratio (C : Corr)
    (t_dry_bulb hum_ratio pressure : ℚ) : Except Err HumidAirState :=
  if 0 > hum_ratio then .error (.valueError .negHumRatio)
  else
    bindE (get_vap_press_from_hum_ratio hum_ratio pressure) fun vp =>
    bindE (get_rel_hum_from_vap_pressure C t_dry_bulb vp) fun rel =>
    bindE (get_t_dew_point_from_vap_pressure C vp) fun td =>
    bindE (get_moist_air_enthalpy t_dry_bulb hum_ratio) fun h =>
    bindE (get_moist_air_volume t_dry_bulb hum_ratio pressure) fun v =>
    .ok ⟨pressure, hum_ratio, t_dry_bulb, td, rel, vp, h, v⟩

/-- The `psychroflow.HumidAirFlow` dataclass, with the `__post_init__`
derived fields stored. -/
structure HumidAirFlow : Type where
  volume_flow : ℚ
  humid_air_state : HumidAirState
  mass_flow_air : ℚ
  mass_flow_water : ℚ
  mass_flow : ℚ
  tot_enthalpy_flow : ℚ
  deriving DecidableEq

/-- Embedding of `HumidAirFlow.__post_init__`: the division by
`moist_air_volume` raises `ZeroDivisionError` when it is zero. -/
def HumidAirFlow.make (volume_flow : ℚ) (s : HumidAirState) :
    Except Err HumidAirFlow :=
  if s.moist_air_volume = 0 then .error .zeroDivision
  else
    .ok ⟨volume_flow, s,
      volume_flow / s.moist_air_volume,
      s.hum_ratio * (volume_flow / s.moist_air_volume),
      volume_flow / s.moist_air_volume
        + s.hum_ratio * (volume_flow / s.moist_air_volume),
      s.moist_air_enthalpy * (volume_flow / s.moist_air_volume)⟩

/-- The `psychroflow.WaterState` dataclass with derived fields. -/
structure WaterState : Type where
  temperature : ℚ
  pressure : ℚ
  density : ℚ
  enthalpy : ℚ
  deriving DecidableEq

/-- Embedding of `WaterState.__post_init__` (liquid water only). -/
def WaterState.make (C : Corr) (temperature pressure : ℚ) :
    Except Err WaterState :=
  bindE (get_density_water C temperature) fun d =>
  bindE (get_enthalpy_water temperature) fun h =>
  .ok ⟨temperature, pressure, d, h⟩

/-- The `psychroflow.WaterFlow` dataclass with derived fields. -/
structure WaterFlow : Type where
  volume_flow : ℚ
  water_state : WaterState
  mass_flow : ℚ
  tot_enthalpy_flow : ℚ
  deriving DecidableEq

/-- Embedding of `WaterFlow.__post_init__` (no fallible operation). -/
def WaterFlow.make (volume_flow : ℚ) (ws : WaterState) : WaterFlow :=
  ⟨volume_flow, ws, volume_flow * ws.density,
    ws.enthalpy * (volume_flow * ws.density)⟩

/-- The `psychroflow.AirWaterFlow` dataclass; `dry` is the
`__post_init__` computed flag. -/
structure AirWaterFlow : Type where
  humid_air_flow : HumidAirFlow
  water_flow : WaterFlow
  dry : Bool
  deriving DecidableEq

/-- Embedding of `AirWaterFlow.__post_init__`: temperature and pressure
of the air and water sub-flows must agree within `math.isclose`
tolerance; a non-zero liquid mass flow clears the `dry` flag and
requires the gas phase to be saturated. -/
def AirWaterFlow.make (haf : HumidAirFlow) (wf : WaterFlow) :
    Except Err AirWaterFlow :=
  if isclose haf.humid_air_state.t_dry_bulb wf.water_state.temperature then
    if isclose haf.humid_air_state.pressure wf.water_state.pressure then
      if isclose wf.mass_flow 0 then .ok ⟨haf, wf, true⟩
      else
        if isclose haf.humid_air_state.rel_hum 1 then .ok ⟨haf, wf, false⟩
        else .error (.valueError .airOverWaterNotSaturated)
    else .error (.valueError .pressureAirWaterMismatch)
  else .error (.valueError .tempAirWaterMismatch)

/-- Embedding of `AirWaterFlow.from_humid_air_flow`. -/
def AirWaterFlow.from_humid_air_flow (C : Corr) (haf : HumidAirFlow) :
    Except Err AirWaterFlow :=
  bindE (WaterState.make C haf.humid_air_state.t_dry_bulb
      haf.humid_air_state.pressure) fun ws =>
  AirWaterFlow.make haf (WaterFlow.make 0 ws)

/-- Embedding of `psychroflow.get_sat_air_enthalpy`. -/
def get_sat_air_enthalpy (C : Corr) (t_dry_bulb pressure : ℚ) : Except Err ℚ :=
  bindE (get_sat_hum_ratio C t_dry_bulb pressure) fun ws =>
  get_moist_air_enthalpy t_dry_bulb ws

/-- Embedding of `psychroflow.get_tot_enthalpy_air_water_mix` (the older
formula; note the saturated branch weights the gas enthalpy by
`(1 + hum_ratio - sat_hum_ratio)` and the condensate term by
`sat_hum_ratio`). -/
def get_tot_enthalpy_air_water_mix (C : Corr) (hum_ratio t_dry_bulb pressure : ℚ) :
    Except Err ℚ :=
  bindE (get_sat_hum_ratio C t_dry_bulb pressure) fun ws =>
  if hum_ratio ≤ ws then
    bindE (get_moist_air_enthalpy t_dry_bulb hum_ratio) fun h =>
    if (1 : ℚ) + hum_ratio = 0 then .error .zeroDivision
    else .ok (h / (1 + hum_ratio))
  else
    bindE (get_sat_air_enthalpy C t_dry_bulb pressure) fun hg =>
    if t_dry_bulb ≤ 0 then
      if (1 : ℚ) + hum_ratio = 0 then .error .zeroDivision
      else
        .ok ((hg * (1 + hum_ratio - ws) + ws * ((-333.4 + 2.07 * (t_dry_bulb - 0.01)) * 1000))
          / (1 + hum_ratio))
    else
      bindE (get_enthalpy_water t_dry_bulb) fun hw =>
      if (1 : ℚ) + hum_ratio = 0 then .error .zeroDivision
      else .ok ((hg * (1 + hum_ratio - ws) + ws * hw) / (1 + hum_ratio))

/-- Body of `from_m_air_m_water_tot_enthalpy_flow` after `hum_ratio`
(`m_water / m_air`) and the equilibrium temperature `t_dry_bulb` (the
root-finder's result) have been computed. -/
def AirWaterFlow.resolve_phase (C : Corr) (m_air hum_ratio t_dry_bulb pressure : ℚ) :
    Except Err AirWaterFlow :=
  bindE (get_sat_hum_ratio C t_dry_bulb pressure) fun sat_hum_ratio =>
  if hum_ratio ≤ sat_hum_ratio then
    bindE (HumidAirState.from_t_dry_bulb_hum_ratio C t_dry_bulb hum_ratio pressure)
      fun has =>
    bindE (HumidAirFlow.make (m_air * has.moist_air_volume) has) fun haf =>
    AirWaterFlow.from_humid_air_flow C haf
  else
    bindE (HumidAirState.from_t_dry_bulb_rel_hum C t_dry_bulb 1 pressure) fun has =>
    bindE (HumidAirFlow.make (m_air * has.moist_air_volume) has) fun haf =>
    bindE (WaterState.make C t_dry_bulb pressure) fun ws =>
    if ws.density = 0 then .error .zeroDivision
    else
      AirWaterFlow.make haf
        (WaterFlow.make ((hum_ratio - sat_hum_ratio) * m_air / ws.density) ws)

/-- Embedding of
`psychroflow.AirWaterFlow.from_m_air_m_water_tot_enthalpy_flow`.  The
bracketed root search for the equilibrium temperature is the
`tempFromTotEnthalpy` oracle; the two leading divisions raise
`ZeroDivisionError` when their denominators are zero, exactly as the
Python source does. -/
def AirWaterFlow.from_m_air_m_water_tot_enthalpy_flow (C : Corr)
    (m_air m_water tot_enthalpy_flow pressure : ℚ) : Except Err AirWaterFlow :=
  if m_air = 0 then .error .zeroDivision
  else if m_air + m_water = 0 then .error .zeroDivision
  else
    AirWaterFlow.resolve_phase C m_air (m_water / m_air)
      (C.tempFromTotEnthalpy (m_water / m_air)
        (tot_enthalpy_flow / (m_air + m_water)) pressure) pressure

/-- Embedding of `psychroflow.AirWaterFlow.from_mixing_two_humid_air_flows`. -/
def AirWaterFlow.from_mixing_two_humid_air_flows (C : Corr)
    (haf_in_1 haf_in_2 : HumidAirFlow) : Except Err AirWaterFlow :=
  let m_air := haf_in_1.mass_flow_air + haf_in_2.mass_flow_air
  let m_water := haf_in_1.mass_flow_water + haf_in_2.mass_flow_water
  let tot_enthalpy_flow := haf_in_1.tot_enthalpy_flow + haf_in_2.tot_enthalpy_flow
  if isclose haf_in_1.humid_air_state.pressure haf_in_2.humid_air_state.pressure then
    AirWaterFlow.from_m_air_m_water_tot_enthalpy_flow C m_air m_water
      tot_enthalpy_flow haf_in_1.humid_air_state.pressure
  else .error (.valueError .pressureMixMismatch)

/-- Embedding of `psychroflow.mix_two_humid_air_flows` (the strict
"dry-only" mixing operation). -/
def mix_two_humid_air_flows (C : Corr) (haf_in_1 haf_in_2 : HumidAirFlow) :
    Except Err HumidAirFlow :=
  bindE (AirWaterFlow.from_mixing_two_humid_air_flows C haf_in_1 haf_in_2) fun awf =>
  if awf.dry then .ok awf.humid_air_flow
  else .error (.valueError .condensation)

/-- Left fold of `mix_two_humid_air_flows` over the tail of the input
list, as in the loop of `psychroflow.mix_humid_air_flows`. -/
def mix_fold (C : Corr) (acc : HumidAirFlow) : List HumidAirFlow →
    Except Err HumidAirFlow
  | [] => .ok acc
  | f :: rest => bindE (mix_two_humid_air_flows C acc f) fun a => mix_fold C a rest

/-- Embedding of `psychroflow.mix_humid_air_flows`; `hafs_in[0]` on an
empty list raises `IndexError`. -/
def mix_humid_air_flows (C : Corr) : List HumidAirFlow → Except Err HumidAirFlow
  | [] => .error .indexError
  | f :: rest => mix_fold C f rest

/-!
Evaluation lemmas: each computes the result of one embedded function on
the success path, under the hypotheses that make its guards pass.
-/

theorem get_sat_vap_pressure_ok (C : Corr) {t : ℚ} (h₁ : -50 ≤ t) (h₂ : t ≤ 150) :
    get_sat_vap_pressure C t = .ok (C.satVapExp t) := by
  unfold get_sat_vap_pressure
  rw [if_neg (by rintro (h | h) <;> linarith)]

/-- The closed-form value `0.621945 * p_sat / (p - p_sat)` returned by
`get_sat_hum_ratio` on its success path. -/
def satRatioF (C : Corr) (t p : ℚ) : ℚ :=
  0.621945 * C.satVapExp t / (p - C.satVapExp t)

theorem get_sat_hum_ratio_ok (C : Corr) {t p : ℚ} (h₁ : -50 ≤ t) (h₂ : t ≤ 150)
    (hsp : C.satVapExp t < p) :
    get_sat_hum_ratio C t p = .ok (satRatioF C t p) := by
  unfold get_sat_hum_ratio satRatioF
  rw [get_sat_vap_pressure_ok C h₁ h₂, bindE_ok, if_neg (by linarith),
    if_neg (sub_ne_zero.mpr (ne_of_gt hsp))]

theorem satRatioF_nonneg (C : Corr) {t p : ℚ} (hs0 : 0 ≤ C.satVapExp t)
    (hsp : C.satVapExp t < p) : 0 ≤ satRatioF C t p := by
  unfold satRatioF
  exact div_nonneg (mul_nonneg (by norm_num) hs0) (by linarith)

theorem get_vap_press_from_hum_ratio_ok {hr : ℚ} (p : ℚ) (h : 0 ≤ hr) :
    get_vap_press_from_hum_ratio hr p = .ok (vapF hr p) := by
  unfold get_vap_press_from_hum_ratio
  rw [if_neg (by linarith), if_neg (by intro hc; linarith)]

theorem vapF_nonneg {hr p : ℚ} (h : 0 ≤ hr) (hp : 0 < p) : 0 ≤ vapF hr p := by
  unfold vapF
  exact div_nonneg (mul_nonneg hp.le h) (by linarith)

theorem get_moist_air_enthalpy_ok {t hr : ℚ} (h : 0 ≤ hr) :
    get_moist_air_enthalpy t hr = .ok (moistF t hr) := by
  unfold get_moist_air_enthalpy
  rw [if_neg (by linarith)]

theorem get_moist_air_volume_ok {t hr p : ℚ} (h : 0 ≤ hr) (hp : p ≠ 0) :
    get_moist_air_volume t hr p = .ok (volF t hr p) := by
  unfold get_moist_air_volume
  rw [if_neg (by linarith), if_neg hp]

theorem volF_pos {t hr p : ℚ} (ht : (-273.15 : ℚ) < t) (h : 0 ≤ hr) (hp : 0 < p) :
    0 < volF t hr p := by
  unfold volF
  have h₁ : (0 : ℚ) < t + 273.15 := by linarith
  have h₂ : (0 : ℚ) < 1 + hr / 0.621945 := by
    have : (0 : ℚ) ≤ hr / 0.621945 := div_nonneg h (by norm_num)
    linarith
  exact mul_pos (div_pos (mul_pos (by norm_num) h₁) hp) h₂

theorem get_rel_hum_from_vap_pressure_ok (C : Corr) {t vp : ℚ} (hvp : 0 ≤ vp)
    (h₁ : -50 ≤ t) (h₂ : t ≤ 150) (hs : C.satVapExp t ≠ 0) :
    get_rel_hum_from_vap_pressure C t vp = .ok (vp / C.satVapExp t) := by
  unfold get_rel_hum_from_vap_pressure
  rw [if_neg (by linarith), get_sat_vap_pressure_ok C h₁ h₂, bindE_ok, if_neg hs]

theorem get_t_dew_point_from_vap_pressure_ok (C : Corr) {vp : ℚ} (h : 0 ≤ vp) :
    get_t_dew_point_from_vap_pressure C vp = .ok (dew_point_val C vp) := by
  unfold get_t_dew_point_from_vap_pressure
  rw [if_neg (by linarith)]

theorem from_t_dry_bulb_hum_ratio_ok (C : Corr) {t hr p : ℚ} (hhr : 0 ≤ hr)
    (h₁ : -50 ≤ t) (h₂ : t ≤ 150) (hs : C.satVapExp t ≠ 0) (hp : 0 < p) :
    HumidAirState.from_t_dry_bulb_hum_ratio C t hr p
      = .ok ⟨p, hr, t, dew_point_val C (vapF hr p), vapF hr p / C.satVapExp t,
          vapF hr p, moistF t hr, volF t hr p⟩ := by
  unfold HumidAirState.from_t_dry_bulb_hum_ratio
  rw [if_neg (by linarith), get_vap_press_from_hum_ratio_ok p hhr, bindE_ok,
    get_rel_hum_from_vap_pressure_ok C (vapF_nonneg hhr hp) h₁ h₂ hs, bindE_ok,
    get_t_dew_point_from_vap_pressure_ok C (vapF_nonneg hhr hp), bindE_ok,
    get_moist_air_enthalpy_ok hhr, bindE_ok,
    get_moist_air_volume_ok hhr (ne_of_gt hp), bindE_ok]

theorem from_t_dry_bulb_rel_hum_one_ok (C : Corr) {t p : ℚ}
    (h₁ : -50 ≤ t) (h₂ : t ≤ 150) (hs0 : 0 ≤ C.satVapExp t)
    (hsp : C.satVapExp t < p) :
    HumidAirState.from_t_dry_bulb_rel_hum C t 1 p
      = .ok ⟨p, satRatioF C t p, t,
          dew_point_val C (vapF (satRatioF C t p) p),
          1, vapF (satRatioF C t p) p,
          moistF t (satRatioF C t p),
          volF t (satRatioF C t p) p⟩ := by
  have hp : 0 < p := lt_of_le_of_lt hs0 hsp
  have hws : 0 ≤ satRatioF C t p := satRatioF_nonneg C hs0 hsp
  unfold HumidAirState.from_t_dry_bulb_rel_hum
  rw [if_neg (by norm_num)]
  unfold get_hum_ratio_from_rel_hum
  rw [if_neg (by norm_num)]
  unfold get_vap_pres_from_rel_hum
  rw [if_neg (by norm_num), get_sat_vap_pressure_ok C h₁ h₂, bindE_ok, bindE_ok]
  have hws₂ : (0 : ℚ) ≤ 0.621945 * C.satVapExp t / (p - C.satVapExp t) := hws
  unfold get_hum_ratio_from_vap_press
  rw [one_mul, if_neg (by linarith), if_neg (sub_ne_zero.mpr (ne_of_gt hsp)), bindE_ok,
    get_vap_press_from_hum_ratio_ok p hws₂, bindE_ok,
    get_t_dew_point_from_vap_pressure_ok C (vapF_nonneg hws₂ hp), bindE_ok,
    get_moist_air_enthalpy_ok hws₂, bindE_ok,
    get_moist_air_volume_ok hws₂ (ne_of_gt hp), bindE_ok]
  rfl

theorem HumidAirFlow.make_ok {v : ℚ} {s : HumidAirState}
    (h : s.moist_air_volume ≠ 0) :
    HumidAirFlow.make v s
      = .ok ⟨v, s, v / s.moist_air_volume,
          s.hum_ratio * (v / s.moist_air_volume),
          v / s.moist_air_volume + s.hum_ratio * (v / s.moist_air_volume),
          s.moist_air_enthalpy * (v / s.moist_air_volume)⟩ := by
  unfold HumidAirFlow.make
  rw [if_neg h]

theorem WaterState.make_liquid_ok (C : Corr) {t : ℚ} (p : ℚ) (h₁ : 0.01 ≤ t) (h₂ : t ≤ 150) :
    WaterState.make C t p = .ok ⟨t, p, C.densityLiquid t, enthWaterF t⟩ := by
  unfold WaterState.make get_density_water get_enthalpy_water
  rw [if_neg (by rintro (h | h) <;> linarith), bindE_ok,
    if_neg (by rintro (h | h) <;> linarith), bindE_ok]

theorem WaterState.make_err (C : Corr) {t : ℚ} (p : ℚ) (h : t < 0.01) :
    WaterState.make C t p = .error (.valueError .tempRangeWater) := by
  unfold WaterState.make get_density_water
  rw [if_pos (Or.inl h), bindE_error]

theorem AirWaterFlow.make_dry {haf : HumidAirFlow} {wf : WaterFlow}
    (ht : haf.humid_air_state.t_dry_bulb = wf.water_state.temperature)
    (hp : haf.humid_air_state.pressure = wf.water_state.pressure)
    (hm : wf.mass_flow = 0) :
    AirWaterFlow.make haf wf = .ok ⟨haf, wf, true⟩ := by
  unfold AirWaterFlow.make
  rw [if_pos (ht ▸ isclose_self _), if_pos (hp ▸ isclose_self _),
    if_pos (hm ▸ isclose_self 0)]

theorem AirWaterFlow.make_wet {haf : HumidAirFlow} {wf : WaterFlow}
    (ht : haf.humid_air_state.t_dry_bulb = wf.water_state.temperature)
    (hp : haf.humid_air_state.pressure = wf.water_state.pressure)
    (hm : wf.mass_flow ≠ 0) (hrel : haf.humid_air_state.rel_hum = 1) :
    AirWaterFlow.make haf wf = .ok ⟨haf, wf, false⟩ := by
  unfold AirWaterFlow.make
  rw [if_pos (ht ▸ isclose_self _), if_pos (hp ▸ isclose_self _),
    if_neg (fun hc => hm (isclose_zero_right_iff.mp hc)),
    if_pos (hrel ▸ isclose_self _)]

/-- Case analysis of `from_m_air_m_water_tot_enthalpy_flow` on the
success paths. -/
theorem AirWaterFlow.from_m_air_cases (C : Corr) {m w h p r t : ℚ}
    (hma : 0 < m) (hmw : 0 ≤ w)
    (hhr : r = w / m)
    (ht : t = C.tempFromTotEnthalpy r (h / (m + w)) p)
    (h₁ : -50 ≤ t) (h₂ : t ≤ 150)
    (hs0 : 0 < C.satVapExp t) (hsp : C.satVapExp t < p)
    (hd : C.densityLiquid t ≠ 0) :
    (0.01 ≤ t → r ≤ satRatioF C t p →
      ∃ a, AirWaterFlow.from_m_air_m_water_tot_enthalpy_flow C m w h p = .ok a
        ∧ a.dry = true
        ∧ a.humid_air_flow.mass_flow_air = m
        ∧ a.humid_air_flow.mass_flow_water = w
        ∧ a.humid_air_flow.tot_enthalpy_flow = moistF t r * m
        ∧ a.humid_air_flow.humid_air_state.t_dry_bulb = t
        ∧ a.humid_air_flow.humid_air_state.hum_ratio = r
        ∧ a.humid_air_flow.humid_air_state.pressure = p
        ∧ a.water_flow.mass_flow = 0
        ∧ a.water_flow.tot_enthalpy_flow = 0)
    ∧ (0.01 ≤ t → satRatioF C t p < r →
      ∃ a, AirWaterFlow.from_m_air_m_water_tot_enthalpy_flow C m w h p = .ok a
        ∧ a.dry = false
        ∧ a.humid_air_flow.mass_flow_air = m
        ∧ a.humid_air_flow.mass_flow_water = satRatioF C t p * m
        ∧ a.humid_air_flow.tot_enthalpy_flow = moistF t (satRatioF C t p) * m
        ∧ a.humid_air_flow.humid_air_state.t_dry_bulb = t
        ∧ a.humid_air_flow.humid_air_state.hum_ratio = satRatioF C t p
        ∧ a.humid_air_flow.humid_air_state.rel_hum = 1
        ∧ a.humid_air_flow.humid_air_state.pressure = p
        ∧ a.water_flow.mass_flow = (r - satRatioF C t p) * m
        ∧ a.water_flow.tot_enthalpy_flow = enthWaterF t * ((r - satRatioF C t p) * m)
        ∧ a.humid_air_flow.mass_flow_water + a.water_flow.mass_flow = w)
    ∧ (t < 0.01 →
      AirWaterFlow.from_m_air_m_water_tot_enthalpy_flow C m w h p
        = .error (.valueError .tempRangeWater)) := by
  have hp : 0 < p := lt_trans hs0 hsp
  have hma0 : m ≠ 0 := ne_of_gt hma
  have hsum : m + w ≠ 0 := ne_of_gt (by linarith)
  have hhr0 : 0 ≤ r := hhr ▸ div_nonneg hmw hma.le
  have hmain :
      AirWaterFlow.from_m_air_m_water_tot_enthalpy_flow C m w h p
        = AirWaterFlow.resolve_phase C m r t p := by
    unfold AirWaterFlow.from_m_air_m_water_tot_enthalpy_flow
    rw [if_neg hma0, if_neg hsum, ← hhr, ← ht]
  rw [hmain]
  unfold AirWaterFlow.resolve_phase
  rw [get_sat_hum_ratio_ok C h₁ h₂ hsp, bindE_ok]
  refine ⟨?_, ?_, ?_⟩
  · -- dry branch
    intro ht001 hle
    rw [if_pos hle,
      from_t_dry_bulb_hum_ratio_ok C hhr0 h₁ h₂ (ne_of_gt hs0) hp, bindE_ok]
    have hvol : volF t r p ≠ 0 := ne_of_gt (volF_pos (by linarith) hhr0 hp)
    rw [HumidAirFlow.make_ok hvol, bindE_ok]
    unfold AirWaterFlow.from_humid_air_flow
    rw [WaterState.make_liquid_ok C p ht001 h₂, bindE_ok,
      AirWaterFlow.make_dry rfl rfl (zero_mul _)]
    refine ⟨_, rfl, rfl, ?_, ?_, ?_, rfl, rfl, rfl, zero_mul _, ?_⟩
    · exact mul_div_cancel_right₀ m hvol
    · show r * (m * volF t r p / volF t r p) = w
      rw [mul_div_cancel_right₀ m hvol, hhr, div_mul_cancel₀ w hma0]
    · show moistF t r * (m * volF t r p / volF t r p) = moistF t r * m
      rw [mul_div_cancel_right₀ m hvol]
    · show enthWaterF t * (0 * C.densityLiquid t) = 0
      ring
  · -- saturated branch
    intro ht001 hlt
    rw [if_neg (not_le.mpr hlt),
      from_t_dry_bulb_rel_hum_one_ok C h₁ h₂ hs0.le hsp, bindE_ok]
    have hws0 : 0 ≤ satRatioF C t p := satRatioF_nonneg C hs0.le hsp
    have hvol : volF t (satRatioF C t p) p ≠ 0 :=
      ne_of_gt (volF_pos (by linarith) hws0 hp)
    rw [HumidAirFlow.make_ok hvol, bindE_ok,
      WaterState.make_liquid_ok C p ht001 h₂, bindE_ok, if_neg hd]
    have hcond : (r - satRatioF C t p) * m / C.densityLiquid t * C.densityLiquid t ≠ 0 := by
      rw [div_mul_cancel₀ _ hd]
      exact mul_ne_zero (sub_ne_zero.mpr (ne_of_gt hlt)) hma0
    rw [AirWaterFlow.make_wet rfl rfl hcond rfl]
    refine ⟨_, rfl, rfl, ?_, ?_, ?_, rfl, rfl, rfl, rfl, ?_, ?_, ?_⟩
    · exact mul_div_cancel_right₀ m hvol
    · show satRatioF C t p * (m * volF t (satRatioF C t p) p / volF t (satRatioF C t p) p)
        = satRatioF C t p * m
      rw [mul_div_cancel_right₀ m hvol]
    · show moistF t (satRatioF C t p) * (m * volF t (satRatioF C t p) p / volF t (satRatioF C t p) p)
        = moistF t (satRatioF C t p) * m
      rw [mul_div_cancel_right₀ m hvol]
    · show (r - satRatioF C t p) * m / C.densityLiquid t * C.densityLiquid t
        = (r - satRatioF C t p) * m
      rw [div_mul_cancel₀ _ hd]
    · show enthWaterF t * ((r - satRatioF C t p) * m / C.densityLiquid t * C.densityLiquid t)
        = enthWaterF t * ((r - satRatioF C t p) * m)
      rw [div_mul_cancel₀ _ hd]
    · show satRatioF C t p * (m * volF t (satRatioF C t p) p / volF t (satRatioF C t p) p)
        + (r - satRatioF C t p) * m / C.densityLiquid t * C.densityLiquid t = w
      rw [mul_div_cancel_right₀ m hvol, div_mul_cancel₀ _ hd, hhr]
      field_simp
      ring
  · -- below the liquid-water domain: WaterState construction fails
    intro htlt
    by_cases hle : r ≤ satRatioF C t p
    · rw [if_pos hle,
        from_t_dry_bulb_hum_ratio_ok C hhr0 h₁ h₂ (ne_of_gt hs0) hp, bindE_ok]
      have hvol : volF t r p ≠ 0 := ne_of_gt (volF_pos (by linarith) hhr0 hp)
      rw [HumidAirFlow.make_ok hvol, bindE_ok]
      unfold AirWaterFlow.from_humid_air_flow
      rw [WaterState.make_err C p htlt, bindE_error]
    · rw [if_neg hle,
        from_t_dry_bulb_rel_hum_one_ok C h₁ h₂ hs0.le hsp, bindE_ok]
      have hws0 : 0 ≤ satRatioF C t p := satRatioF_nonneg C hs0.le hsp
      have hvol : volF t (satRatioF C t p) p ≠ 0 :=
        ne_of_gt (volF_pos (by linarith) hws0 hp)
      rw [HumidAirFlow.make_ok hvol, bindE_ok,
        WaterState.make_err C p htlt, bindE_error]

end PF

namespace PF

/-!
The pressure-mismatch error is raised only by
`from_mixing_two_humid_air_flows` itself: no function reachable from
`from_m_air_m_water_tot_enthalpy_flow` can produce it.
-/

theorem svp_ne_pm (C : Corr) (t : ℚ) :
    get_sat_vap_pressure C t ≠ .error (.valueError .pressureMixMismatch) := by
  unfold get_sat_vap_pressure
  split <;> simp

theorem shr_ne_pm (C : Corr) (t p : ℚ) :
    get_sat_hum_ratio C t p ≠ .error (.valueError .pressureMixMismatch) := by
  unfold get_sat_hum_ratio
  refine bindE_ne_error (svp_ne_pm C t) fun s => ?_
  split <;> [skip; split] <;> simp

theorem vap_ne_pm (hr p : ℚ) :
    get_vap_press_from_hum_ratio hr p ≠ .error (.valueError .pressureMixMismatch) := by
  unfold get_vap_press_from_hum_ratio
  split <;> [skip; split] <;> simp

theorem relhum_ne_pm (C : Corr) (t vp : ℚ) :
    get_rel_hum_from_vap_pressure C t vp ≠ .error (.valueError .pressureMixMismatch) := by
  unfold get_rel_hum_from_vap_pressure
  split
  · simp
  · refine bindE_ne_error (svp_ne_pm C t) fun s => ?_
    split <;> simp

theorem dew_ne_pm (C : Corr) (vp : ℚ) :
    get_t_dew_point_from_vap_pressure C vp ≠ .error (.valueError .pressureMixMismatch) := by
  unfold get_t_dew_point_from_vap_pressure
  split <;> simp

theorem moist_ne_pm (t hr : ℚ) :
    get_moist_air_enthalpy t hr ≠ .error (.valueError .pressureMixMismatch) := by
  unfold get_moist_air_enthalpy
  split <;> simp

theorem vol_ne_pm (t hr p : ℚ) :
    get_moist_air_volume t hr p ≠ .error (.valueError .pressureMixMismatch) := by
  unfold get_moist_air_volume
  split <;> [skip; split] <;> simp

theorem from_hr_ne_pm (C : Corr) (t hr p : ℚ) :
    HumidAirState.from_t_dry_bulb_hum_ratio C t hr p
      ≠ .error (.valueError .pressureMixMismatch) := by
  unfold HumidAirState.from_t_dry_bulb_hum_ratio
  split
  · simp
  · refine bindE_ne_error (vap_ne_pm hr p) fun vp => ?_
    refine bindE_ne_error (relhum_ne_pm C t vp) fun rel => ?_
    refine bindE_ne_error (dew_ne_pm C vp) fun td => ?_
    refine bindE_ne_error (moist_ne_pm t hr) fun h => ?_
    refine bindE_ne_error (vol_ne_pm t hr p) fun v => ?_
    simp

theorem hum_ratio_rel_ne_pm (C : Corr) (t rh p : ℚ) :
    get_hum_ratio_from_rel_hum C t rh p
      ≠ .error (.valueError .pressureMixMismatch) := by
  unfold get_hum_ratio_from_rel_hum
  split
  · simp
  · refine bindE_ne_error ?_ fun vp => ?_
    · unfold get_vap_pres_from_rel_hum
      split
      · simp
      · exact bindE_ne_error (svp_ne_pm C t) fun s => by simp
    · unfold get_hum_ratio_from_vap_press
      split <;> [skip; split] <;> simp

theorem from_rh_ne_pm (C : Corr) (t rh p : ℚ) :
    HumidAirState.from_t_dry_bulb_rel_hum C t rh p
      ≠ .error (.valueError .pressureMixMismatch) := by
  unfold HumidAirState.from_t_dry_bulb_rel_hum
  split
  · simp
  · refine bindE_ne_error (hum_ratio_rel_ne_pm C t rh p) fun hr => ?_
    refine bindE_ne_error (vap_ne_pm hr p) fun vp => ?_
    refine bindE_ne_error (dew_ne_pm C vp) fun td => ?_
    refine bindE_ne_error (moist_ne_pm t hr) fun h => ?_
    refine bindE_ne_error (vol_ne_pm t hr p) fun v => ?_
    simp

theorem hafmake_ne_pm (v : ℚ) (s : HumidAirState) :
    HumidAirFlow.make v s ≠ .error (.valueError .pressureMixMismatch) := by
  unfold HumidAirFlow.make
  split <;> simp

theorem wsmake_ne_pm (C : Corr) (t p : ℚ) :
    WaterState.make C t p ≠ .error (.valueError .pressureMixMismatch) := by
  unfold WaterState.make
  refine bindE_ne_error ?_ fun d => ?_
  · unfold get_density_water
    split <;> simp
  · refine bindE_ne_error ?_ fun h => by simp
    unfold get_enthalpy_water
    split <;> simp

theorem awfmake_ne_pm (haf : HumidAirFlow) (wf : WaterFlow) :
    AirWaterFlow.make haf wf ≠ .error (.valueError .pressureMixMismatch) := by
  unfold AirWaterFlow.make
  split_ifs <;> simp

theorem from_haf_ne_pm (C : Corr) (haf : HumidAirFlow) :
    AirWaterFlow.from_humid_air_flow C haf
      ≠ .error (.valueError .pressureMixMismatch) := by
  unfold AirWaterFlow.from_humid_air_flow
  exact bindE_ne_error (wsmake_ne_pm C _ _) fun ws => awfmake_ne_pm _ _

theorem resolve_phase_ne_pm (C : Corr) (m_air hr t p : ℚ) :
    AirWaterFlow.resolve_phase C m_air hr t p
      ≠ .error (.valueError .pressureMixMismatch) := by
  unfold AirWaterFlow.resolve_phase
  refine bindE_ne_error (shr_ne_pm C t p) fun ws => ?_
  split
  · refine bindE_ne_error (from_hr_ne_pm C t hr p) fun has => ?_
    refine bindE_ne_error (hafmake_ne_pm _ _) fun haf => ?_
    exact from_haf_ne_pm C haf
  · refine bindE_ne_error (from_rh_ne_pm C t 1 p) fun has => ?_
    refine bindE_ne_error (hafmake_ne_pm _ _) fun haf => ?_
    refine bindE_ne_error (wsmake_ne_pm C t p) fun ws₂ => ?_
    split
    · simp
    · exact awfmake_ne_pm _ _

theorem from_m_air_ne_pm (C : Corr) (m_air m_water h p : ℚ) :
    AirWaterFlow.from_m_air_m_water_tot_enthalpy_flow C m_air m_water h p
      ≠ .error (.valueError .pressureMixMismatch) := by
  unfold AirWaterFlow.from_m_air_m_water_tot_enthalpy_flow
  split <;> [simp; split] <;> [simp; skip]
  exact resolve_phase_ne_pm C _ _ _ _

end PF

/-! ### Claim C6 -/

/-- C6: mixing two humid-air flows whose pressures are not equal within
tolerance fails with the pressure-mismatch `ValueError` irrespective of
every correlation and of the root-finding oracle (so before any
equilibrium computation can matter), while flows at pressures equal
within tolerance can never produce that error. -/
theorem C6_pressure_mismatch (C : PF.Corr) (f1 f2 : PF.HumidAirFlow) :
    (¬ isclose f1.humid_air_state.pressure f2.humid_air_state.pressure →
      PF.AirWaterFlow.from_mixing_two_humid_air_flows C f1 f2
        = .error (.valueError .pressureMixMismatch))
    ∧ (isclose f1.humid_air_state.pressure f2.humid_air_state.pressure →
      PF.AirWaterFlow.from_mixing_two_humid_air_flows C f1 f2
        ≠ .error (.valueError .pressureMixMismatch)) := by
  constructor
  · intro hne
    unfold PF.AirWaterFlow.from_mixing_two_humid_air_flows
    rw [if_neg hne]
  · intro heq
    unfold PF.AirWaterFlow.from_mixing_two_humid_air_flows
    rw [if_pos heq]
    exact PF.from_m_air_ne_pm C _ _ _ _

/-- Flows used by the C6 witness: pressures 101325 Pa and 90000 Pa as in
the spec's pressure-mismatch scenario, built through the
`HumidAirFlow` constructor. -/
def C6state1 : PF.HumidAirState := ⟨101325, 1/100, 20, 5, 1/2, 30, 40000, 1⟩

def C6state2 : PF.HumidAirState := ⟨90000, 1/100, 20, 5, 1/2, 30, 40000, 1⟩

def C6corr : PF.Corr := ⟨fun _ => 100, fun _ => 1000, fun _ => 5, fun _ _ _ => 20⟩

/-- Witness for C6 at the spec's concrete pressures. -/
theorem C6_pressure_mismatch_witness :
    (bindE (PF.HumidAirFlow.make 1 C6state1) fun f1 =>
      bindE (PF.HumidAirFlow.make 1 C6state2) fun f2 =>
      PF.AirWaterFlow.from_mixing_two_humid_air_flows C6corr f1 f2)
      = .error (.valueError .pressureMixMismatch)
    ∧ (bindE (PF.HumidAirFlow.make 1 C6state1) fun f1 =>
        PF.AirWaterFlow.from_mixing_two_humid_air_flows C6corr f1 f1)
      ≠ .error (.valueError .pressureMixMismatch) := by
  have h1 : C6state1.moist_air_volume ≠ 0 := by norm_num [C6state1]
  have h2 : C6state2.moist_air_volume ≠ 0 := by norm_num [C6state2]
  rw [PF.HumidAirFlow.make_ok h1, PF.HumidAirFlow.make_ok h2]
  simp only [bindE_ok]
  constructor
  · exact (C6_pressure_mismatch C6corr _ _).1
      (by norm_num [isclose, C6state1, C6state2])
  · exact (C6_pressure_mismatch C6corr _ _).2 (isclose_self _)

/-! ### Claim C7 -/

/-- C7 (amended): mixing flows with zero total dry-air mass flow fails
with `ZeroDivisionError` raised by the `m_water / m_air` division —
there is no explicit "no dry air" validation in the code. -/
theorem C7_zero_dry_air (C : PF.Corr) (f1 f2 : PF.HumidAirFlow)
    (hpr : isclose f1.humid_air_state.pressure f2.humid_air_state.pressure)
    (hz : f1.mass_flow_air + f2.mass_flow_air = 0) :
    PF.AirWaterFlow.from_mixing_two_humid_air_flows C f1 f2
      = .error .zeroDivision := by
  unfold PF.AirWaterFlow.from_mixing_two_humid_air_flows
  rw [if_pos hpr]
  unfold PF.AirWaterFlow.from_m_air_m_water_tot_enthalpy_flow
  rw [if_pos hz]

def C7corr : PF.Corr := ⟨fun _ => 100, fun _ => 1000, fun _ => 5, fun _ _ _ => 20⟩

/-- Counterexample for C7 as stated: with zero dry-air mass flow the
code raises `ZeroDivisionError` (performing the division), not a
`ValueError`/validation error with a "no dry air" message. -/
theorem C7_zero_division_counterexample :
    PF.AirWaterFlow.from_m_air_m_water_tot_enthalpy_flow C7corr 0 (1/10) 100 1000
      = .error .zeroDivision
    ∧ ∀ m : PF.Msg,
      PF.AirWaterFlow.from_m_air_m_water_tot_enthalpy_flow C7corr 0 (1/10) 100 1000
        ≠ .error (.valueError m) := by
  have h : PF.AirWaterFlow.from_m_air_m_water_tot_enthalpy_flow C7corr 0 (1/10) 100 1000
      = .error .zeroDivision := by
    unfold PF.AirWaterFlow.from_m_air_m_water_tot_enthalpy_flow
    rw [if_pos rfl]
  exact ⟨h, fun m => by rw [h]; simp⟩

def C7state : PF.HumidAirState := ⟨1000, 1/100, 20, 5, 1/2, 30, 40000, 1⟩

/-- Witness for C7 on flows with zero volume flow (hence zero dry-air
mass flow). -/
theorem C7_zero_dry_air_witness :
    (bindE (PF.HumidAirFlow.make 0 C7state) fun f =>
      PF.AirWaterFlow.from_mixing_two_humid_air_flows C7corr f f)
      = .error .zeroDivision := by
  have h1 : C7state.moist_air_volume ≠ 0 := by norm_num [C7state]
  rw [PF.HumidAirFlow.make_ok h1, bindE_ok]
  exact C7_zero_dry_air C7corr _ _ (isclose_self _) (by norm_num [C7state])

/-! ### Claim C10 -/

/-- C10: the `AirWaterFlow` constructor invariants.  A successful
construction keeps the given sub-flows, requires their temperatures and
pressures to agree within `math.isclose` tolerance, and whenever the
liquid mass flow is not (approximately) zero the gas phase must be
saturated and the `dry` flag is cleared; any violating combination is
rejected with an error. -/
theorem C10_air_water_flow_invariants (haf : PF.HumidAirFlow) (wf : PF.WaterFlow) :
    (∀ a, PF.AirWaterFlow.make haf wf = .ok a →
      isclose haf.humid_air_state.t_dry_bulb wf.water_state.temperature
      ∧ isclose haf.humid_air_state.pressure wf.water_state.pressure
      ∧ a.humid_air_flow = haf ∧ a.water_flow = wf
      ∧ (¬ isclose wf.mass_flow 0 →
          isclose haf.humid_air_state.rel_hum 1 ∧ a.dry = false)
      ∧ (isclose wf.mass_flow 0 → a.dry = true))
    ∧ (¬ (isclose haf.humid_air_state.t_dry_bulb wf.water_state.temperature
          ∧ isclose haf.humid_air_state.pressure wf.water_state.pressure
          ∧ (isclose wf.mass_flow 0 ∨ isclose haf.humid_air_state.rel_hum 1)) →
        ∃ e, PF.AirWaterFlow.make haf wf = .error e) := by
  unfold PF.AirWaterFlow.make
  split_ifs with h1 h2 h3 h4
  · refine ⟨fun a ha => ?_, fun hn => absurd ⟨h1, h2, Or.inl h3⟩ hn⟩
    injection ha with ha
    subst ha
    exact ⟨h1, h2, rfl, rfl, fun hm => absurd h3 hm, fun _ => rfl⟩
  · refine ⟨fun a ha => ?_, fun hn => absurd ⟨h1, h2, Or.inr h4⟩ hn⟩
    injection ha with ha
    subst ha
    exact ⟨h1, h2, rfl, rfl, fun _ => ⟨h4, rfl⟩, fun hm => absurd hm h3⟩
  · exact ⟨fun a ha => by simp at ha,
      fun _ => ⟨.valueError .airOverWaterNotSaturated, rfl⟩⟩
  · exact ⟨fun a ha => by simp at ha,
      fun _ => ⟨.valueError .pressureAirWaterMismatch, rfl⟩⟩
  · exact ⟨fun a ha => by simp at ha,
      fun _ => ⟨.valueError .tempAirWaterMismatch, rfl⟩⟩

def C10state : PF.HumidAirState := ⟨1000, 1/100, 20, 5, 1, 30, 40000, 1⟩

def C10water : PF.WaterState := ⟨20, 1000, 998, 83900⟩

/-- The humid-air flow `HumidAirFlow(1, C10state)` as produced by the
flow constructor (see the first conjunct of the witness). -/
def C10haf : PF.HumidAirFlow :=
  ⟨1, C10state, 1 / C10state.moist_air_volume,
    C10state.hum_ratio * (1 / C10state.moist_air_volume),
    1 / C10state.moist_air_volume
      + C10state.hum_ratio * (1 / C10state.moist_air_volume),
    C10state.moist_air_enthalpy * (1 / C10state.moist_air_volume)⟩

/-- Witness for C10: a saturated gas flow over a non-zero liquid flow at
matching temperature and pressure satisfies the constructor invariants. -/
theorem C10_air_water_flow_invariants_witness :
    PF.HumidAirFlow.make 1 C10state = .ok C10haf
    ∧ isclose C10haf.humid_air_state.t_dry_bulb
        (PF.WaterFlow.make 1 C10water).water_state.temperature
    ∧ isclose C10haf.humid_air_state.rel_hum 1
    ∧ (⟨C10haf, PF.WaterFlow.make 1 C10water, false⟩ : PF.AirWaterFlow).dry = false := by
  have hmass : (PF.WaterFlow.make 1 C10water).mass_flow ≠ 0 := by
    norm_num [PF.WaterFlow.make, C10water]
  have h := (C10_air_water_flow_invariants C10haf (PF.WaterFlow.make 1 C10water)).1
    ⟨C10haf, PF.WaterFlow.make 1 C10water, false⟩
    (PF.AirWaterFlow.make_wet rfl rfl hmass rfl)
  exact ⟨PF.HumidAirFlow.make_ok (by norm_num [C10state]), h.1,
    (h.2.2.2.2.1 (fun hc => hmass (isclose_zero_right_iff.mp hc))).1,
    (h.2.2.2.2.1 (fun hc => hmass (isclose_zero_right_iff.mp hc))).2⟩

/-! ### Claims C1 and C2 -/

/-- Concrete correlation instance for the C1 analysis: constant
saturation vapour pressure 100 Pa, constant liquid density 1000 kg/m³,
and a root-finder oracle returning 20 °C (which the first conjunct of
`C1_enthalpy_not_conserved` proves to be an exact root for these
inputs). -/
def C1corr : PF.Corr := ⟨fun _ => 100, fun _ => 1000, fun _ => 5, fun _ _ _ => 20⟩

/-- Total enthalpy flow of the mixed input for C1, chosen so that 20 °C
is an exact root of the equilibrium-enthalpy equation for
`m_air = 1, m_water = 0.1, pressure = 1000`. -/
def C1hin : ℚ := 4146346730832307907/20000000000000

/-- C1 (code bug): on a condensing mix (`hum_ratio = 0.1` above the
saturation ratio `0.069105` at the exactly-resolved equilibrium
temperature 20 °C), the dry-air and total water mass flows of the
resulting `AirWaterFlow` equal the inputs' sums, but the total enthalpy
flow of the result differs from the input total enthalpy flow: the
saturated branch of the old `get_tot_enthalpy_air_water_mix` weights the
gas enthalpy by `(1 + hr - ws)` and the condensate by `ws` instead of
`1` and `(hr - ws)`. -/
theorem C1_enthalpy_not_conserved :
    PF.get_tot_enthalpy_air_water_mix C1corr (1/10) 20 1000 = .ok (C1hin / (1 + 1/10))
    ∧ ∃ a, PF.AirWaterFlow.from_m_air_m_water_tot_enthalpy_flow C1corr 1 (1/10) C1hin 1000
          = .ok a
        ∧ a.humid_air_flow.mass_flow_air = 1
        ∧ a.humid_air_flow.mass_flow_water + a.water_flow.mass_flow = 1/10
        ∧ a.humid_air_flow.tot_enthalpy_flow + a.water_flow.tot_enthalpy_flow ≠ C1hin := by
  have hsvp : C1corr.satVapExp 20 = 100 := rfl
  have hshr : PF.get_sat_hum_ratio C1corr 20 1000 = .ok (13821/200000) := by
    rw [PF.get_sat_hum_ratio_ok C1corr (by norm_num) (by norm_num) (by rw [hsvp]; norm_num)]
    norm_num [PF.satRatioF, hsvp]
  constructor
  · unfold PF.get_tot_enthalpy_air_water_mix
    rw [hshr, bindE_ok, if_neg (by norm_num)]
    unfold PF.get_sat_air_enthalpy
    rw [hshr, bindE_ok]
    unfold PF.get_moist_air_enthalpy
    rw [if_neg (by norm_num : ¬((13821:ℚ)/200000 < 0)), bindE_ok,
      if_neg (by norm_num : ¬((20:ℚ) ≤ 0))]
    unfold PF.get_enthalpy_water
    rw [if_neg (by norm_num), bindE_ok, if_neg (by norm_num : ¬(1 + (1:ℚ)/10 = 0))]
    norm_num [PF.moistF, PF.enthWaterF, C1hin]
  · have hmaster := PF.AirWaterFlow.from_m_air_cases C1corr
      (m := 1) (w := 1/10) (h := C1hin) (p := 1000) (r := 1/10) (t := 20)
      (by norm_num) (by norm_num) (by norm_num) rfl
      (by norm_num) (by norm_num) (by rw [hsvp]; norm_num) (by rw [hsvp]; norm_num)
      (by norm_num [C1corr])
    have hws : PF.satRatioF C1corr 20 1000 = 13821/200000 := by
      norm_num [PF.satRatioF, hsvp]
    obtain ⟨a, ha, hdry, hmair, hmwg, hent, -, -, -, -, hwm, hwent, hsum⟩ :=
      hmaster.2.1 (by norm_num) (by rw [hws]; norm_num)
    refine ⟨a, ha, hmair, hsum, ?_⟩
    rw [hent, hwent, hws]
    norm_num [PF.moistF, PF.enthWaterF, C1hin]

/-- C2 (amended): the phase decision of
`from_m_air_m_water_tot_enthalpy_flow` at the resolved equilibrium
temperature `t`.  When the target humidity ratio is at most the
saturation humidity ratio (boundary inclusive), the result is a dry
`AirWaterFlow` whose gas phase is at `(t, hum_ratio)` with no
condensate; when it exceeds it, the gas phase is saturated
(`rel_hum = 1`, `hum_ratio` = saturation value) and a liquid condensate
carries `(hum_ratio - sat_hum_ratio) * m_air`; and when `t` falls below
the triple point 0.01 °C the construction fails with the liquid-water
range `ValueError` — the code has no ice branch. -/
theorem C2_phase_decision (C : PF.Corr) {m w h p r t : ℚ}
    (hma : 0 < m) (hmw : 0 ≤ w)
    (hhr : r = w / m)
    (ht : t = C.tempFromTotEnthalpy r (h / (m + w)) p)
    (h₁ : -50 ≤ t) (h₂ : t ≤ 150)
    (hs0 : 0 < C.satVapExp t) (hsp : C.satVapExp t < p)
    (hd : C.densityLiquid t ≠ 0) :
    (0.01 ≤ t → r ≤ PF.satRatioF C t p →
      ∃ a, PF.AirWaterFlow.from_m_air_m_water_tot_enthalpy_flow C m w h p = .ok a
        ∧ a.dry = true
        ∧ a.humid_air_flow.humid_air_state.t_dry_bulb = t
        ∧ a.humid_air_flow.humid_air_state.hum_ratio = r
        ∧ a.water_flow.mass_flow = 0)
    ∧ (0.01 ≤ t → PF.satRatioF C t p < r →
      ∃ a, PF.AirWaterFlow.from_m_air_m_water_tot_enthalpy_flow C m w h p = .ok a
        ∧ a.dry = false
        ∧ a.humid_air_flow.humid_air_state.t_dry_bulb = t
        ∧ a.humid_air_flow.humid_air_state.hum_ratio = PF.satRatioF C t p
        ∧ a.humid_air_flow.humid_air_state.rel_hum = 1
        ∧ a.water_flow.mass_flow = (r - PF.satRatioF C t p) * m
        ∧ a.humid_air_flow.mass_flow_water + a.water_flow.mass_flow = w)
    ∧ (t < 0.01 →
      PF.AirWaterFlow.from_m_air_m_water_tot_enthalpy_flow C m w h p
        = .error (.valueError .tempRangeWater)) := by
  have hmaster := PF.AirWaterFlow.from_m_air_cases C hma hmw hhr ht h₁ h₂ hs0 hsp hd
  refine ⟨fun ha hb => ?_, fun ha hb => ?_, hmaster.2.2⟩
  · obtain ⟨a, h1, h2, -, -, -, h6, h7, -, h9, -⟩ := hmaster.1 ha hb
    exact ⟨a, h1, h2, h6, h7, h9⟩
  · obtain ⟨a, h1, h2, -, -, -, h6, h7, h8, -, h10, -, h12⟩ := hmaster.2.1 ha hb
    exact ⟨a, h1, h2, h6, h7, h8, h10, h12⟩

/-- Correlation instance for the C2 counterexample: root-finder oracle
resolving −5 °C (cold condensing mix). -/
def C2corr : PF.Corr := ⟨fun _ => 100, fun _ => 1000, fun _ => 5, fun _ _ _ => -5⟩

/-- Input total enthalpy flow making −5 °C an exact root for
`m_air = 1, m_water = 0.1, pressure = 1000` under `C2corr`. -/
def C2hin : ℚ := 594217477861097883/4000000000000

/-- Counterexample for C2 as stated: a supersaturated mix resolving to
−5 °C (below the 0.01 °C triple point, so the claim requires an ice
condensate) makes the code raise the liquid-water temperature-range
`ValueError` instead of returning a flow with an ice condensate. -/
theorem C2_no_ice_counterexample :
    PF.get_tot_enthalpy_air_water_mix C2corr (1/10) (-5) 1000 = .ok (C2hin / (1 + 1/10))
    ∧ PF.satRatioF C2corr (-5) 1000 < 1/10
    ∧ PF.AirWaterFlow.from_m_air_m_water_tot_enthalpy_flow C2corr 1 (1/10) C2hin 1000
        = .error (.valueError .tempRangeWater) := by
  have hsvp : C2corr.satVapExp (-5) = 100 := rfl
  have hshr : PF.get_sat_hum_ratio C2corr (-5) 1000 = .ok (13821/200000) := by
    rw [PF.get_sat_hum_ratio_ok C2corr (by norm_num) (by norm_num) (by rw [hsvp]; norm_num)]
    norm_num [PF.satRatioF, hsvp]
  refine ⟨?_, ?_, ?_⟩
  · unfold PF.get_tot_enthalpy_air_water_mix
    rw [hshr, bindE_ok, if_neg (by norm_num)]
    unfold PF.get_sat_air_enthalpy
    rw [hshr, bindE_ok]
    unfold PF.get_moist_air_enthalpy
    rw [if_neg (by norm_num : ¬((13821:ℚ)/200000 < 0)), bindE_ok,
      if_pos (by norm_num : ((-5:ℚ) ≤ 0)), if_neg (by norm_num : ¬(1 + (1:ℚ)/10 = 0))]
    norm_num [PF.moistF, C2hin]
  · norm_num [PF.satRatioF, hsvp]
  · exact (PF.AirWaterFlow.from_m_air_cases C2corr
      (m := 1) (w := 1/10) (h := C2hin) (p := 1000) (r := 1/10) (t := -5)
      (by norm_num) (by norm_num) (by norm_num) rfl
      (by norm_num) (by norm_num) (by rw [hsvp]; norm_num) (by rw [hsvp]; norm_num)
      (by norm_num [C2corr])).2.2 (by norm_num)

/-- Correlation instance for the C2 witness (oracle resolving 20 °C). -/
def C2wcorr : PF.Corr := ⟨fun _ => 100, fun _ => 1000, fun _ => 7, fun _ _ _ => 20⟩

/-- Witness for C2: at 20 °C, a supersaturated target produces the
saturated gas phase plus a liquid condensate with the excess mass. -/
theorem C2_phase_decision_witness :
    ∃ a, PF.AirWaterFlow.from_m_air_m_water_tot_enthalpy_flow C2wcorr 1 (1/10) 0 1000
        = .ok a
      ∧ a.dry = false
      ∧ a.humid_air_flow.humid_air_state.rel_hum = 1
      ∧ a.water_flow.mass_flow = (1/10 - PF.satRatioF C2wcorr 20 1000) * 1 := by
  obtain ⟨a, h1, h2, -, -, h5, h6, -⟩ :=
    (C2_phase_decision C2wcorr (m := 1) (w := 1/10) (h := 0) (p := 1000)
      (r := 1/10) (t := 20)
      (by norm_num) (by norm_num) (by norm_num) rfl
      (by norm_num) (by norm_num)
      (by norm_num [C2wcorr]) (by norm_num [C2wcorr])
      (by norm_num [C2wcorr])).2.1 (by norm_num)
      (by norm_num [PF.satRatioF, C2wcorr])
  exact ⟨a, h1, h2, h5, h6⟩

namespace PF

/-- Reduction of `mix_two_humid_air_flows` once the pressures agree. -/
theorem mix_two_eq (C : Corr) (f1 f2 : HumidAirFlow)
    (hpr : isclose f1.humid_air_state.pressure f2.humid_air_state.pressure) :
    mix_two_humid_air_flows C f1 f2
      = bindE (AirWaterFlow.from_m_air_m_water_tot_enthalpy_flow C
          (f1.mass_flow_air + f2.mass_flow_air)
          (f1.mass_flow_water + f2.mass_flow_water)
          (f1.tot_enthalpy_flow + f2.tot_enthalpy_flow)
          f1.humid_air_state.pressure) fun awf =>
        if awf.dry then .ok awf.humid_air_flow
        else .error (.valueError .condensation) := by
  unfold mix_two_humid_air_flows AirWaterFlow.from_mixing_two_humid_air_flows
  rw [if_pos hpr]

end PF

/-! ### Claim C4 -/

/-- C4 (amended): the strict dry-only mixing operation
`mix_two_humid_air_flows` on flows at a common pressure, when the
equilibrium temperature resolves into the supported liquid-water range:
a condensing mix raises the plain "Condensation" `ValueError` (which
carries no excess-water payload), and a non-condensing mix returns the
unsaturated mixed flow carrying the summed dry-air and water mass
flows. -/
theorem C4_dry_only_mixing (C : PF.Corr) (f1 f2 : PF.HumidAirFlow) {r t : ℚ}
    (hpr : isclose f1.humid_air_state.pressure f2.humid_air_state.pressure)
    (hma : 0 < f1.mass_flow_air + f2.mass_flow_air)
    (hmw : 0 ≤ f1.mass_flow_water + f2.mass_flow_water)
    (hhr : r = (f1.mass_flow_water + f2.mass_flow_water)
      / (f1.mass_flow_air + f2.mass_flow_air))
    (ht : t = C.tempFromTotEnthalpy r
      ((f1.tot_enthalpy_flow + f2.tot_enthalpy_flow)
        / (f1.mass_flow_air + f2.mass_flow_air
          + (f1.mass_flow_water + f2.mass_flow_water)))
      f1.humid_air_state.pressure)
    (h₁ : -50 ≤ t) (h₂ : t ≤ 150) (ht001 : 0.01 ≤ t)
    (hs0 : 0 < C.satVapExp t) (hsp : C.satVapExp t < f1.humid_air_state.pressure)
    (hd : C.densityLiquid t ≠ 0) :
    (PF.satRatioF C t f1.humid_air_state.pressure < r →
      PF.mix_two_humid_air_flows C f1 f2 = .error (.valueError .condensation))
    ∧ (r ≤ PF.satRatioF C t f1.humid_air_state.pressure →
      ∃ g, PF.mix_two_humid_air_flows C f1 f2 = .ok g
        ∧ g.mass_flow_air = f1.mass_flow_air + f2.mass_flow_air
        ∧ g.mass_flow_water = f1.mass_flow_water + f2.mass_flow_water
        ∧ g.humid_air_state.t_dry_bulb = t
        ∧ g.humid_air_state.hum_ratio = r) := by
  have hmaster := PF.AirWaterFlow.from_m_air_cases C hma hmw hhr ht h₁ h₂ hs0 hsp hd
  rw [PF.mix_two_eq C f1 f2 hpr]
  constructor
  · intro hlt
    obtain ⟨a, h1, h2, -⟩ := hmaster.2.1 ht001 hlt
    rw [h1, bindE_ok, h2]
    simp
  · intro hle
    obtain ⟨a, h1, h2, hmair, hmwat, -, htd, hhum, -, -, -⟩ := hmaster.1 ht001 hle
    rw [h1, bindE_ok, h2]
    exact ⟨a.humid_air_flow, by simp, hmair, hmwat, htd, hhum⟩

def C4corr : PF.Corr := ⟨fun _ => 100, fun _ => 1000, fun _ => 5, fun _ _ _ => 20⟩

def C4state1 : PF.HumidAirState := ⟨1000, 1/10, 25, 5, 1/2, 30, 40000, 1⟩

def C4state2 : PF.HumidAirState := ⟨1000, 3/20, 25, 5, 1/2, 30, 40000, 1⟩

/-- The flow `HumidAirFlow(1, C4state1)`. -/
def C4flow1 : PF.HumidAirFlow := ⟨1, C4state1, 1, 1/10, 1 + 1/10, 40000⟩

/-- The flow `HumidAirFlow(1, C4state2)`. -/
def C4flow2 : PF.HumidAirFlow := ⟨1, C4state2, 1, 3/20, 1 + 3/20, 40000⟩

/-- Counterexample for C4 as stated: two different condensing mixes
(excess water mass flows `(0.1 - 0.069105)·2` and `(0.15 - 0.069105)·2`)
raise the *same* error value — the bare "Condensation" `ValueError` — so
the raised error does not expose the would-be excess water mass flow. -/
theorem C4_error_payload_counterexample :
    PF.HumidAirFlow.make 1 C4state1 = .ok C4flow1
    ∧ PF.HumidAirFlow.make 1 C4state2 = .ok C4flow2
    ∧ PF.mix_two_humid_air_flows C4corr C4flow1 C4flow1
        = .error (.valueError .condensation)
    ∧ PF.mix_two_humid_air_flows C4corr C4flow2 C4flow2
        = .error (.valueError .condensation)
    ∧ (1/10 - PF.satRatioF C4corr 20 1000) * 2
        ≠ (3/20 - PF.satRatioF C4corr 20 1000) * 2 := by
  refine ⟨?_, ?_, ?_, ?_, by norm_num [PF.satRatioF, C4corr]⟩
  · rw [PF.HumidAirFlow.make_ok (by norm_num [C4state1])]
    norm_num [C4flow1, C4state1]
  · rw [PF.HumidAirFlow.make_ok (by norm_num [C4state2])]
    norm_num [C4flow2, C4state2]
  · rw [PF.mix_two_eq C4corr _ _ (isclose_self _)]
    obtain ⟨a, h1, h2, -⟩ :=
      (PF.AirWaterFlow.from_m_air_cases C4corr (r := 1/10) (t := 20)
        (m := C4flow1.mass_flow_air + C4flow1.mass_flow_air)
        (w := C4flow1.mass_flow_water + C4flow1.mass_flow_water)
        (h := C4flow1.tot_enthalpy_flow + C4flow1.tot_enthalpy_flow)
        (p := C4flow1.humid_air_state.pressure)
        (by norm_num [C4flow1]) (by norm_num [C4flow1])
        (by norm_num [C4flow1]) (by norm_num [C4corr])
        (by norm_num) (by norm_num)
        (by norm_num [C4corr]) (by norm_num [C4corr, C4flow1, C4state1])
        (by norm_num [C4corr])).2.1 (by norm_num)
        (by norm_num [PF.satRatioF, C4corr, C4flow1, C4state1])
    rw [h1, bindE_ok, h2]
    simp
  · rw [PF.mix_two_eq C4corr _ _ (isclose_self _)]
    obtain ⟨a, h1, h2, -⟩ :=
      (PF.AirWaterFlow.from_m_air_cases C4corr (r := 3/20) (t := 20)
        (m := C4flow2.mass_flow_air + C4flow2.mass_flow_air)
        (w := C4flow2.mass_flow_water + C4flow2.mass_flow_water)
        (h := C4flow2.tot_enthalpy_flow + C4flow2.tot_enthalpy_flow)
        (p := C4flow2.humid_air_state.pressure)
        (by norm_num [C4flow2]) (by norm_num [C4flow2])
        (by norm_num [C4flow2]) (by norm_num [C4corr])
        (by norm_num) (by norm_num)
        (by norm_num [C4corr]) (by norm_num [C4corr, C4flow2, C4state2])
        (by norm_num [C4corr])).2.1 (by norm_num)
        (by norm_num [PF.satRatioF, C4corr, C4flow2, C4state2])
    rw [h1, bindE_ok, h2]
    simp

def C4state3 : PF.HumidAirState := ⟨1000, 1/20, 25, 5, 1/2, 30, 40000, 1⟩

/-- The flow `HumidAirFlow(1, C4state3)`. -/
def C4flow3 : PF.HumidAirFlow := ⟨1, C4state3, 1, 1/20, 1 + 1/20, 40000⟩

/-- Witness for C4: a non-condensing mix (`hr = 0.05` below the
saturation ratio at 20 °C) passes the dry-only operation and keeps the
mixed temperature and humidity ratio. -/
theorem C4_dry_only_mixing_witness :
    ∃ g, PF.mix_two_humid_air_flows C4corr C4flow3 C4flow3 = .ok g
      ∧ g.humid_air_state.t_dry_bulb = 20
      ∧ g.humid_air_state.hum_ratio = 1/20 := by
  obtain ⟨g, h1, -, -, htd, hhum⟩ :=
    (C4_dry_only_mixing C4corr C4flow3 C4flow3 (r := 1/20) (t := 20) (isclose_self _)
      (by norm_num [C4flow3]) (by norm_num [C4flow3])
      (by norm_num [C4flow3]) (by norm_num [C4corr])
      (by norm_num) (by norm_num) (by norm_num)
      (by norm_num [C4corr]) (by norm_num [C4corr, C4flow3, C4state3])
      (by norm_num [C4corr])).2
      (by norm_num [PF.satRatioF, C4corr, C4flow3, C4state3])
  exact ⟨g, h1, htd, hhum⟩

namespace PS

/-!
Embedding of the newer state layer: `psychrostate.py` together with the
enthalpy correlations it imports from `waterstate.py`.
-/

/-- Messages of the exceptions raised in `psychrostate.py` /
`waterstate.py`, one constructor per distinct message. -/
inductive Msg : Type
  /-- "Wet bulb temperature is above dry bulb temperature" -/
  | wetBulbAboveDry
  /-- "Invalid temperature range -223.15°C<=t<=373.9°C; ..." -/
  | domainSatVap
  /-- "Invalid temperature range 0.01°C<=t<=373.9°C; ..." -/
  | domainSatVapLiquid
  /-- "Invalid temperature range -223.15°C<=t<=0.01°C; ..." -/
  | domainSatVapIce
  /-- "Relative humidity is outside range [0, 1]" -/
  | relHumRange
  /-- "Partial pressure of water vapor in moist air cannot be negative" -/
  | negVapPres
  /-- "Vapour pressure water > pressure" -/
  | vapPressAbovePressure
  /-- "Humidity ratio can not be negative" (in `get_vap_press_from_hum_ratio`) -/
  | negHumRatioVapPress
  /-- "Humidity ratio cannot be negative" -/
  | negHumRatio
  /-- "relative Humidity > 1; Condensation!" -/
  | relHumCondensing
  /-- "Temperature range: 0.01 °C < T < 150 °C" (liquid water enthalpy) -/
  | tempRangeWaterLiquid
  /-- "Temperature range: -273.15 °C < T < 0.01 °C" (ice enthalpy) -/
  | tempRangeWaterIce
  /-- "Root not converged: " / "Root not found: " -/
  | rootNotConverged
  deriving DecidableEq

/-- Python exceptions raised by the state layer. -/
inductive Err : Type
  | valueError (m : Msg)
  | zeroDivision
  | arithmeticError (m : Msg)
  deriving DecidableEq

/-- Abstracted non-elementary ingredients of `psychrostate.py`: the
liquid-water and ice saturation-vapour-pressure correlations (both
`exp`-based closed forms), and the three bracketed root-finders (dew
point, wet-bulb temperature, temperature from total equilibrium
enthalpy), modelled as total oracles; theorems that rely on an oracle
returning an actual root state that as an explicit hypothesis. -/
structure Corr : Type where
  satVapLiquid : ℚ → ℚ
  satVapIce : ℚ → ℚ
  dewPoint : ℚ → ℚ
  wetBulb : ℚ → ℚ → ℚ → ℚ
  tFromTotEnthalpy : ℚ → ℚ → ℚ → ℚ

/-- Closed-form body of `get_moist_air_enthalpy` (J per kg dry air). -/
def moistF (t_dry_bulb hum_ratio : ℚ) : ℚ :=
  (1.0046 * (t_dry_bulb - 0.01)
    + hum_ratio * (2500.9 + 1.863 * (t_dry_bulb - 0.01))) * 1000

/-- Closed-form body of `get_moist_air_volume` (m³ per kg dry air). -/
def volF (t_dry_bulb hum_ratio pressure : ℚ) : ℚ :=
  287.05 * (t_dry_bulb + 273.15) / pressure * (1 + hum_ratio / 0.621945)

/-- Closed-form body of `get_vap_press_from_hum_ratio`. -/
def vapF (hum_ratio pressure : ℚ) : ℚ :=
  pressure * hum_ratio / (0.621945 + hum_ratio)

/-- Closed-form body of `waterstate.get_enthalpy_water_liquid`
(Popiel–Wojtkowiak polynomial, J/kg). -/
def enthWaterLiquidF (t : ℚ) : ℚ :=
  (-0.02844699 + 4.211925 * t + -0.001017034 * t ^ 2 + 0.00001311054 * t ^ 3
    + -0.00000006756469 * t ^ 4 + 0.0000000001724481 * t ^ 5) * 1000

/-- Closed-form body of `waterstate.get_enthalpy_water_ice`
(polynomial fit, J/kg). -/
def enthWaterIceF (t : ℚ) : ℚ :=
  (-333.277728 + 2.11430597 * t + 0.00424278787 * t ^ 2
    + 0.0000060764807 * t ^ 3 + 0.0000000155000954 * t ^ 4) * 1000

/-- Embedding of `psychrostate.get_sat_vap_pressure_liquid_water`. -/
def get_sat_vap_pressure_liquid_water (C : Corr) (t_dry_bulb : ℚ) : Except Err ℚ :=
  if t_dry_bulb < 0.01 ∨ 373.9 < t_dry_bulb then
    .error (.valueError .domainSatVapLiquid)
  else .ok (C.satVapLiquid t_dry_bulb)

/-- Embedding of `psychrostate.get_sat_vap_pressure_water_ice` (with its
valid-range check active, as in every production call). -/
def get_sat_vap_pressure_water_ice (C : Corr) (t_dry_bulb : ℚ) : Except Err ℚ :=
  if t_dry_bulb < -223.15 ∨ 0.01 < t_dry_bulb then
    .error (.valueError .domainSatVapIce)
  else .ok (C.satVapIce t_dry_bulb)

/-- Embedding of `psychrostate.get_sat_vap_pressure`: extended domain
−223.15 °C ≤ t ≤ 373.9 °C, liquid branch for t ≥ 0.01 °C, ice branch
below. -/
def get_sat_vap_pressure (C : Corr) (t_dry_bulb : ℚ) : Except Err ℚ :=
  if t_dry_bulb < -223.15 ∨ 373.9 < t_dry_bulb then
    .error (.valueError .domainSatVap)
  else if 0.01 ≤ t_dry_bulb then get_sat_vap_pressure_liquid_water C t_dry_bulb
  else get_sat_vap_pressure_water_ice C t_dry_bulb

/-- Embedding of `psychrostate.get_vap_pres_from_rel_hum`, including the
`math.isclose` clamping of `rel_hum` to the boundaries. -/
def get_vap_pres_from_rel_hum (C : Corr) (t_dry_bulb rel_hum : ℚ) : Except Err ℚ :=
  if isclose 0 rel_hum then
    bindE (get_sat_vap_pressure C t_dry_bulb) fun s => .ok (0 * s)
  else if isclose 1 rel_hum then
    bindE (get_sat_vap_pressure C t_dry_bulb) fun s => .ok (1 * s)
  else if rel_hum < 0 ∨ 1 < rel_hum then .error (.valueError .relHumRange)
  else bindE (get_sat_vap_pressure C t_dry_bulb) fun s => .ok (rel_hum * s)

/-- Value of `psychrostate.get_t_dew_point_from_vap_pressure` on a
non-negative vapour pressure: −196 °C for a vanishing vapour pressure,
otherwise the bracketed root search (the `dewPoint` oracle). -/
def dew_val (C : Corr) (vap_pres : ℚ) : ℚ :=
  if isclose 0 vap_pres then -196 else C.dewPoint vap_pres

/-- Embedding of `psychrostate.get_t_dew_point_from_vap_pressure`. -/
def get_t_dew_point_from_vap_pressure (C : Corr) (vap_pres : ℚ) : Except Err ℚ :=
  if vap_pres < 0 then .error (.valueError .negVapPres)
  else .ok (dew_val C vap_pres)

/-- Embedding of `psychrostate.get_hum_ratio_from_vap_press` (this newer
version additionally rejects a negative result, arising when
`vap_pres > pressure`). -/
def get_hum_ratio_from_vap_press (vap_pres pressure : ℚ) : Except Err ℚ :=
  if vap_pres < 0 then .error (.valueError .negVapPres)
  else if pressure - vap_pres = 0 then .error .zeroDivision
  else if 0.621945 * vap_pres / (pressure - vap_pres) < 0 then
    .error (.valueError .vapPressAbovePressure)
  else .ok (0.621945 * vap_pres / (pressure - vap_pres))

/-- Embedding of `psychrostate.get_vap_press_from_hum_ratio`. -/
def get_vap_press_from_hum_ratio (hum_ratio pressure : ℚ) : Except Err ℚ :=
  if hum_ratio < 0 then .error (.valueError .negHumRatioVapPress)
  else if (0.621945 : ℚ) + hum_ratio = 0 then .error .zeroDivision
  else .ok (vapF hum_ratio pressure)

/-- Embedding of `psychrostate.get_hum_ratio_from_rel_hum`. -/
def get_hum_ratio_from_rel_hum (C : Corr) (t_dry_bulb rel_hum pressure : ℚ) :
    Except Err ℚ :=
  if rel_hum < 0 ∨ 1 < rel_hum then .error (.valueError .relHumRange)
  else
    bindE (get_vap_pres_from_rel_hum C t_dry_bulb rel_hum) fun vp =>
      get_hum_ratio_from_vap_press vp pressure

/-- Embedding of `psychrostate.get_moist_air_enthalpy`. -/
def get_moist_air_enthalpy (t_dry_bulb hum_ratio : ℚ) : Except Err ℚ :=
  if hum_ratio < 0 then .error (.valueError .negHumRatio)
  else .ok (moistF t_dry_bulb hum_ratio)

/-- Embedding of `psychrostate.get_moist_air_volume`. -/
def get_moist_air_volume (t_dry_bulb hum_ratio pressure : ℚ) : Except Err ℚ :=
  if hum_ratio < 0 then .error (.valueError .negHumRatio)
  else if pressure = 0 then .error .zeroDivision
  else .ok (volF t_dry_bulb hum_ratio pressure)

/-- Embedding of `psychrostate.get_sat_hum_ratio`.  When the saturation
vapour pressure exceeds the total pressure this version returns the
sentinel `float("inf")`, modelled as `none`; a finite value is `some`. -/
def get_sat_hum_ratio (C : Corr) (t_dry_bulb pressure : ℚ) :
    Except Err (Option ℚ) :=
  bindE (get_sat_vap_pressure C t_dry_bulb) fun s =>
    if pressure < s then .ok none
    else if pressure - s = 0 then .error .zeroDivision
    else .ok (some (0.621945 * s / (pressure - s)))

/-- Embedding of `psychrostate.get_rel_hum_from_vap_pressure`. -/
def get_rel_hum_from_vap_pressure (C : Corr) (t_dry_bulb vap_pres : ℚ) :
    Except Err ℚ :=
  if vap_pres < 0 then .error (.valueError .negVapPres)
  else
    bindE (get_sat_vap_pressure C t_dry_bulb) fun s =>
      if s = 0 then .error .zeroDivision
      else .ok (vap_pres / s)

/-- Embedding of `waterstate.get_enthalpy_water_liquid`. -/
def get_enthalpy_water_liquid (t : ℚ) : Except Err ℚ :=
  if t < 0.01 ∨ 150 < t then .error (.valueError .tempRangeWaterLiquid)
  else .ok (enthWaterLiquidF t)

/-- Embedding of `waterstate.get_enthalpy_water_ice`. -/
def get_enthalpy_water_ice (t : ℚ) : Except Err ℚ :=
  if t < -273.15 ∨ 0.01 < t then .error (.valueError .tempRangeWaterIce)
  else .ok (enthWaterIceF t)

/-- The body of `psychrostate.get_tot_enthalpy_air_water_mix` once the
saturation humidity ratio (`none` = the `float("inf")` sentinel) has
been obtained; a humidity ratio is never above the infinite sentinel, so
the sentinel always selects the unsaturated formula. -/
def tot_mix_with_sat (hum_ratio t_dry_bulb : ℚ) : Option ℚ → Except Err ℚ
  | none =>
      bindE (get_moist_air_enthalpy t_dry_bulb hum_ratio) fun h =>
      if (1 : ℚ) + hum_ratio = 0 then .error .zeroDivision
      else .ok (h / (1 + hum_ratio))
  | some ws =>
      if hum_ratio ≤ ws then
        bindE (get_moist_air_enthalpy t_dry_bulb hum_ratio) fun h =>
        if (1 : ℚ) + hum_ratio = 0 then .error .zeroDivision
        else .ok (h / (1 + hum_ratio))
      else
        bindE (get_moist_air_enthalpy t_dry_bulb ws) fun hg =>
        if 0.01 ≤ t_dry_bulb then
          bindE (get_enthalpy_water_liquid t_dry_bulb) fun hw =>
          if (1 : ℚ) + hum_ratio = 0 then .error .zeroDivision
          else .ok ((hg + hw * (hum_ratio - ws)) / (1 + hum_ratio))
        else
          bindE (get_enthalpy_water_ice t_dry_bulb) fun hi =>
          if (1 : ℚ) + hum_ratio = 0 then .error .zeroDivision
          else .ok ((hg + hi * (hum_ratio - ws)) / (1 + hum_ratio))

/-- Embedding of `psychrostate.get_tot_enthalpy_air_water_mix` (the
newer formula).  In the supersaturated branch `get_sat_air_enthalpy`
(which recomputes the saturation humidity ratio, finite there) is
inlined as `get_moist_air_enthalpy t ws`. -/
def get_tot_enthalpy_air_water_mix (C : Corr) (hum_ratio t_dry_bulb pressure : ℚ) :
    Except Err ℚ :=
  bindE (get_sat_hum_ratio C t_dry_bulb pressure) fun o =>
  tot_mix_with_sat hum_ratio t_dry_bulb o

/-- Embedding of `psychrostate.get_t_wet_bulb` (bracketed root search,
modelled by the `wetBulb` oracle). -/
def get_t_wet_bulb (C : Corr) (t_dry_bulb hum_ratio pressure : ℚ) : ℚ :=
  C.wetBulb t_dry_bulb hum_ratio pressure

/-- The `psychrostate.HumidAirState` dataclass (this newer version also
carries the wet-bulb temperature). -/
structure HumidAirState : Type where
  pressure : ℚ
  hum_ratio : ℚ
  t_dry_bulb : ℚ
  t_wet_bulb : ℚ
  t_dew_point : ℚ
  rel_hum : ℚ
  vap_pres : ℚ
  moist_air_enthalpy : ℚ
  moist_air_volume : ℚ
  deriving DecidableEq

/-- Embedding of `psychrostate.HumidAirState.from_t_dry_bulb_rel_hum`.
The guard `if 0 > rel_hum > 1` is Python's chained comparison, never
true, embedded faithfully. -/
def HumidAirState.from_t_dry_bulb_rel_hum (C : Corr)
    (t_dry_bulb rel_hum pressure : ℚ) : Except Err HumidAirState :=
  if 0 > rel_hum ∧ rel_hum > 1 then .error (.valueError .wetBulbAboveDry)
  else
    bindE (get_hum_ratio_from_rel_hum C t_dry_bulb rel_hum pressure) fun hr =>
    bindE (get_vap_press_from_hum_ratio hr pressure) fun vp =>
    bindE (get_t_dew_point_from_vap_pressure C vp) fun td =>
    bindE (get_moist_air_enthalpy t_dry_bulb hr) fun h =>
    bindE (get_moist_air_volume t_dry_bulb hr pressure) fun v =>
    .ok ⟨pressure, hr, t_dry_bulb, get_t_wet_bulb C t_dry_bulb hr pressure,
      td, rel_hum, vp, h, v⟩

/-- Embedding of `psychrostate.HumidAirState.from_t_dry_bulb_hum_ratio`,
with the two `math.isclose` clamping steps: a negative humidity ratio is
clamped to 0 only when `isclose(hum_ratio, 0)` (which, with
`abs_tol = 0`, only holds at exactly 0), and a computed relative
humidity above 1 is clamped to 1 when `isclose(rel_hum, 1)`. -/
def HumidAirState.from_t_dry_bulb_hum_ratio (C : Corr)
    (t_dry_bulb hum_ratio pressure : ℚ) : Except Err HumidAirState :=
  if 0 > hum_ratio ∧ ¬ isclose hum_ratio 0 then .error (.valueError .negHumRatio)
  else
    bindE (get_vap_press_from_hum_ratio
        (if 0 > hum_ratio then 0 else hum_ratio) pressure) fun vp =>
    bindE (get_rel_hum_from_vap_pressure C t_dry_bulb vp) fun rel =>
    if 1 < rel ∧ ¬ isclose rel 1 then .error (.valueError .relHumCondensing)
    else
      bindE (get_t_dew_point_from_vap_pressure C vp) fun td =>
      bindE (get_moist_air_enthalpy t_dry_bulb
          (if 0 > hum_ratio then 0 else hum_ratio)) fun h =>
      bindE (get_moist_air_volume t_dry_bulb
          (if 0 > hum_ratio then 0 else hum_ratio) pressure) fun v =>
      .ok ⟨pressure, if 0 > hum_ratio then 0 else hum_ratio, t_dry_bulb,
        get_t_wet_bulb C t_dry_bulb (if 0 > hum_ratio then 0 else hum_ratio) pressure,
        td, if 1 < rel then 1 else rel, vp, h, v⟩

/-- Embedding of `psychrostate.HumidAirState.from_hum_ratio_enthalpy`;
the inverse temperature-from-enthalpy root search is the
`tFromTotEnthalpy` oracle. -/
def HumidAirState.from_hum_ratio_enthalpy (C : Corr)
    (hum_ratio moist_air_enthalpy pressure : ℚ) : Except Err HumidAirState :=
  bindE (get_vap_press_from_hum_ratio hum_ratio pressure) fun vp =>
  if (1 : ℚ) + hum_ratio = 0 then .error .zeroDivision
  else
    bindE (get_t_dew_point_from_vap_pressure C vp) fun td =>
    bindE (get_rel_hum_from_vap_pressure C
        (C.tFromTotEnthalpy hum_ratio (moist_air_enthalpy / (1 + hum_ratio)) pressure)
        vp) fun rel =>
    bindE (get_moist_air_volume
        (C.tFromTotEnthalpy hum_ratio (moist_air_enthalpy / (1 + hum_ratio)) pressure)
        hum_ratio pressure) fun v =>
    .ok ⟨pressure, hum_ratio,
      C.tFromTotEnthalpy hum_ratio (moist_air_enthalpy / (1 + hum_ratio)) pressure,
      get_t_wet_bulb C
        (C.tFromTotEnthalpy hum_ratio (moist_air_enthalpy / (1 + hum_ratio)) pressure)
        hum_ratio pressure,
      td, rel, vp, moist_air_enthalpy, v⟩

end PS

/-! ### Claim C9 -/

/-- C9: the extended saturation vapour pressure function returns a value
for every −223.15 °C ≤ T ≤ 373.9 °C — the liquid-water correlation for
T ≥ 0.01 °C and the ice correlation below — and fails with the
domain-range error for every T outside. -/
theorem C9_sat_vap_pressure_domain (C : PS.Corr) (t : ℚ) :
    (-223.15 ≤ t → t ≤ 373.9 →
      PS.get_sat_vap_pressure C t
        = .ok (if 0.01 ≤ t then C.satVapLiquid t else C.satVapIce t))
    ∧ (t < -223.15 ∨ 373.9 < t →
      PS.get_sat_vap_pressure C t = .error (.valueError .domainSatVap)) := by
  constructor
  · intro h₁ h₂
    unfold PS.get_sat_vap_pressure
    rw [if_neg (by rintro (h | h) <;> linarith)]
    by_cases hb : (0.01 : ℚ) ≤ t
    · rw [if_pos hb, if_pos hb]
      unfold PS.get_sat_vap_pressure_liquid_water
      rw [if_neg (by rintro (h | h) <;> linarith)]
    · rw [if_neg hb, if_neg hb]
      unfold PS.get_sat_vap_pressure_water_ice
      rw [if_neg (by rintro (h | h) <;> linarith)]
  · intro h
    unfold PS.get_sat_vap_pressure
    rw [if_pos h]

def C9corr : PS.Corr := ⟨fun _ => 2339, fun _ => 103, fun _ => 5, fun _ _ _ => 20, fun _ _ _ => 20⟩

/-- Witness for C9 at the spec's concrete probe points: T = 500 °C and
T = −300 °C are rejected with the domain error, while 20 °C (liquid
branch) and −20 °C (ice branch) return the correlation values. -/
theorem C9_sat_vap_pressure_domain_witness :
    PS.get_sat_vap_pressure C9corr 500 = .error (.valueError .domainSatVap)
    ∧ PS.get_sat_vap_pressure C9corr (-300) = .error (.valueError .domainSatVap)
    ∧ PS.get_sat_vap_pressure C9corr 20 = .ok 2339
    ∧ PS.get_sat_vap_pressure C9corr (-20) = .ok 103 := by
  refine ⟨(C9_sat_vap_pressure_domain C9corr 500).2 (by norm_num),
    (C9_sat_vap_pressure_domain C9corr (-300)).2 (by norm_num),
    ?_, ?_⟩
  · rw [(C9_sat_vap_pressure_domain C9corr 20).1 (by norm_num) (by norm_num),
      if_pos (by norm_num)]
    rfl
  · rw [(C9_sat_vap_pressure_domain C9corr (-20)).1 (by norm_num) (by norm_num),
      if_neg (by norm_num)]
    rfl

/-! ### Claim C3 -/

/-- C3: structure of the newer total equilibrium enthalpy
`psychrostate.get_tot_enthalpy_air_water_mix`.  For `hr ≥ 0`, a finite
saturation ratio (saturation pressure strictly below total pressure) and
temperatures within the water-property domains, the function returns the
moist-air enthalpy normalised by total mass when `hr` is at most the
saturation humidity ratio, and otherwise the saturated-gas enthalpy plus
the excess water's condensed-phase enthalpy — liquid when
T ≥ 0.01 °C, ice when T < 0.01 °C — normalised by total mass. -/
theorem C3_tot_enthalpy_formula (C : PS.Corr) (hr t p s : ℚ)
    (hhr : 0 ≤ hr)
    (hs : PS.get_sat_vap_pressure C t = .ok s)
    (hs0 : 0 ≤ s) (hsp : s < p)
    (htlo : -273.15 ≤ t) (hthi : t ≤ 150) :
    PS.get_tot_enthalpy_air_water_mix C hr t p
      = .ok (if hr ≤ 0.621945 * s / (p - s)
          then PS.moistF t hr / (1 + hr)
          else if 0.01 ≤ t
            then (PS.moistF t (0.621945 * s / (p - s))
              + PS.enthWaterLiquidF t * (hr - 0.621945 * s / (p - s))) / (1 + hr)
            else (PS.moistF t (0.621945 * s / (p - s))
              + PS.enthWaterIceF t * (hr - 0.621945 * s / (p - s))) / (1 + hr)) := by
  have hone : ¬((1 : ℚ) + hr = 0) := by intro hc; linarith
  have hws0 : 0 ≤ 0.621945 * s / (p - s) :=
    div_nonneg (mul_nonneg (by norm_num) hs0) (by linarith)
  unfold PS.get_tot_enthalpy_air_water_mix PS.get_sat_hum_ratio
  rw [hs, bindE_ok, if_neg (by linarith), if_neg (sub_ne_zero.mpr (ne_of_gt hsp)),
    bindE_ok]
  simp only [PS.tot_mix_with_sat]
  by_cases hcase : hr ≤ 0.621945 * s / (p - s)
  · rw [if_pos hcase]
    unfold PS.get_moist_air_enthalpy
    rw [if_neg (by linarith), bindE_ok, if_neg hone, if_pos hcase]
  · rw [if_neg hcase]
    unfold PS.get_moist_air_enthalpy
    rw [if_neg (by linarith), bindE_ok, if_neg hcase]
    by_cases htri : (0.01 : ℚ) ≤ t
    · rw [if_pos htri]
      unfold PS.get_enthalpy_water_liquid
      rw [if_neg (by rintro (h | h) <;> linarith), bindE_ok, if_neg hone, if_pos htri]
    · rw [if_neg htri]
      unfold PS.get_enthalpy_water_ice
      rw [if_neg (by rintro (h | h) <;> linarith), bindE_ok, if_neg hone, if_neg htri]


def C3corr : PS.Corr := ⟨fun _ => 100, fun _ => 100, fun _ => 5, fun _ _ _ => 20, fun _ _ _ => 20⟩

/-- Witness for C3 evaluating all three branches at concrete points
(unsaturated at 20 °C, condensing over liquid at 20 °C, condensing over
ice at −5 °C). -/
theorem C3_tot_enthalpy_formula_witness :
    PS.get_tot_enthalpy_air_water_mix C3corr (1/100) 20 1000
      = .ok (PS.moistF 20 (1/100) / (1 + 1/100))
    ∧ PS.get_tot_enthalpy_air_water_mix C3corr (1/10) 20 1000
      = .ok ((PS.moistF 20 (13821/200000)
          + PS.enthWaterLiquidF 20 * (1/10 - 13821/200000)) / (1 + 1/10))
    ∧ PS.get_tot_enthalpy_air_water_mix C3corr (1/10) (-5) 1000
      = .ok ((PS.moistF (-5) (13821/200000)
          + PS.enthWaterIceF (-5) * (1/10 - 13821/200000)) / (1 + 1/10)) := by
  have hs20 : PS.get_sat_vap_pressure C3corr 20 = .ok 100 := by
    norm_num [PS.get_sat_vap_pressure, PS.get_sat_vap_pressure_liquid_water, C3corr]
  have hs5 : PS.get_sat_vap_pressure C3corr (-5) = .ok 100 := by
    norm_num [PS.get_sat_vap_pressure, PS.get_sat_vap_pressure_water_ice, C3corr]
  refine ⟨?_, ?_, ?_⟩
  · rw [C3_tot_enthalpy_formula C3corr (1/100) 20 1000 100 (by norm_num) hs20
      (by norm_num) (by norm_num) (by norm_num) (by norm_num),
      if_pos (by norm_num)]
  · rw [C3_tot_enthalpy_formula C3corr (1/10) 20 1000 100 (by norm_num) hs20
      (by norm_num) (by norm_num) (by norm_num) (by norm_num),
      if_neg (by norm_num), if_pos (by norm_num)]
    norm_num
  · rw [C3_tot_enthalpy_formula C3corr (1/10) (-5) 1000 100 (by norm_num) hs5
      (by norm_num) (by norm_num) (by norm_num) (by norm_num),
      if_neg (by norm_num), if_neg (by norm_num)]
    norm_num

theorem not_isclose_zero_left {a : ℚ} (h : a ≠ 0) : ¬ isclose 0 a :=
  fun hc => h (isclose_zero_left_iff.mp hc)

theorem not_isclose_zero_right {a : ℚ} (h : a ≠ 0) : ¬ isclose a 0 :=
  fun hc => h (isclose_zero_right_iff.mp hc)

/-! ### Claim C8 -/

theorem bindE_eq_ok {ε α β : Type} {x : Except ε α} {f : α → Except ε β} {b : β}
    (h : bindE x f = .ok b) : ∃ a, x = .ok a ∧ f a = .ok b := by
  cases x with
  | error e => simp [bindE] at h
  | ok a => exact ⟨a, rfl, h⟩

/-- C8 (amended): the factory validation behaviour of the newer
`HumidAirState`.  A relative humidity outside [0, 1] and any strictly
negative humidity ratio are rejected with the respective `ValueError`
(the near-zero clamp of a negative humidity ratio is unreachable because
`math.isclose(hr, 0)` has zero absolute tolerance); a state successfully
built by the (T, hum-ratio) factory keeps its humidity ratio and has
relative humidity clamped to at most 1; a state successfully built by
the (T, rel-hum) factory has its relative humidity within [0, 1] and a
non-negative humidity ratio. -/
theorem C8_validation_and_clamping :
    (∀ (C : PS.Corr) (t rh p : ℚ), rh < 0 ∨ 1 < rh →
      PS.HumidAirState.from_t_dry_bulb_rel_hum C t rh p
        = .error (.valueError .relHumRange))
    ∧ (∀ (C : PS.Corr) (t hr p : ℚ), hr < 0 →
      PS.HumidAirState.from_t_dry_bulb_hum_ratio C t hr p
        = .error (.valueError .negHumRatio))
    ∧ (∀ (C : PS.Corr) (t hr p : ℚ) (st : PS.HumidAirState),
      PS.HumidAirState.from_t_dry_bulb_hum_ratio C t hr p = .ok st →
      st.hum_ratio = hr ∧ 0 ≤ hr ∧ st.rel_hum ≤ 1)
    ∧ (∀ (C : PS.Corr) (t rh p : ℚ) (st : PS.HumidAirState),
      PS.HumidAirState.from_t_dry_bulb_rel_hum C t rh p = .ok st →
      0 ≤ rh ∧ rh ≤ 1 ∧ st.rel_hum = rh ∧ 0 ≤ st.hum_ratio) := by
  refine ⟨?_, ?_, ?_, ?_⟩
  · intro C t rh p h
    unfold PS.HumidAirState.from_t_dry_bulb_rel_hum
    rw [if_neg (by rintro ⟨h₁, h₂⟩; linarith)]
    unfold PS.get_hum_ratio_from_rel_hum
    rw [if_pos h, bindE_error]
  · intro C t hr p h
    unfold PS.HumidAirState.from_t_dry_bulb_hum_ratio
    rw [if_pos ⟨h, not_isclose_zero_right (ne_of_lt h)⟩]
  · intro C t hr p st hok
    unfold PS.HumidAirState.from_t_dry_bulb_hum_ratio at hok
    split at hok
    · simp at hok
    · rename_i hguard
      have hhr0 : ¬ 0 > hr := by
        intro hneg
        exact hguard ⟨hneg, not_isclose_zero_right (ne_of_lt hneg)⟩
      rw [if_neg hhr0] at hok
      obtain ⟨vp, -, hok⟩ := bindE_eq_ok hok
      obtain ⟨rel, -, hok⟩ := bindE_eq_ok hok
      split at hok
      · simp at hok
      · obtain ⟨td, -, hok⟩ := bindE_eq_ok hok
        obtain ⟨h₂, -, hok⟩ := bindE_eq_ok hok
        obtain ⟨v, -, hok⟩ := bindE_eq_ok hok
        injection hok with hok
        subst hok
        refine ⟨rfl, not_lt.mp hhr0, ?_⟩
        show (if 1 < rel then 1 else rel) ≤ 1
        split
        · exact le_refl 1
        · rename_i hle
          exact not_lt.mp hle
  · intro C t rh p st hok
    unfold PS.HumidAirState.from_t_dry_bulb_rel_hum at hok
    split at hok
    · simp at hok
    · obtain ⟨hr, hhr, hok⟩ := bindE_eq_ok hok
      unfold PS.get_hum_ratio_from_rel_hum at hhr
      split at hhr
      · simp at hhr
      · rename_i hrange
        push_neg at hrange
        obtain ⟨vp, -, hhr⟩ := bindE_eq_ok hhr
        unfold PS.get_hum_ratio_from_vap_press at hhr
        split at hhr
        · simp at hhr
        · split at hhr
          · simp at hhr
          · split at hhr
            · simp at hhr
            · rename_i hvneg
              injection hhr with hhr
              obtain ⟨vp₂, -, hok⟩ := bindE_eq_ok hok
              obtain ⟨td, -, hok⟩ := bindE_eq_ok hok
              obtain ⟨h₂, -, hok⟩ := bindE_eq_ok hok
              obtain ⟨v, -, hok⟩ := bindE_eq_ok hok
              injection hok with hok
              subst hok
              exact ⟨hrange.1, hrange.2, rfl, hhr ▸ not_lt.mp hvneg⟩

def C8corr : PS.Corr := ⟨fun _ => 100, fun _ => 100, fun _ => 5, fun _ _ _ => 20, fun _ _ _ => 20⟩

/-- Total (per-dry-air) enthalpy making 20 °C the exact equilibrium root
for `hum_ratio = 0.1` at 1000 Pa under `C8corr`. -/
def C8hin : ℚ := 495180594799054251/2500000000000

/-- Counterexample for C8 as stated.  First: a negative humidity ratio
within numerical epsilon of zero (−10⁻¹²) is *rejected*, not clamped to
zero — `math.isclose(hr, 0)` has zero absolute tolerance, so the clamp
branch is unreachable.  Second: the (hum-ratio, enthalpy) factory
happily constructs a state whose relative humidity exceeds 1
(≈ 1.385 here), violating the claimed invariant `rel_hum ≤ 1` for every
successfully constructed state. -/
theorem C8_clamp_counterexample :
    PS.HumidAirState.from_t_dry_bulb_hum_ratio C8corr 20 (-1/1000000000000) 1000
      = .error (.valueError .negHumRatio)
    ∧ (PS.HumidAirState.from_hum_ratio_enthalpy C8corr (1/10) C8hin 1000).map
        (fun st => st.rel_hum) = .ok (200000/144389)
    ∧ (1 : ℚ) < 200000/144389
    ∧ PS.get_tot_enthalpy_air_water_mix C8corr (1/10) 20 1000
        = .ok (C8hin / (1 + 1/10)) := by
  have hsvp : PS.get_sat_vap_pressure C8corr 20 = .ok 100 := by
    norm_num [PS.get_sat_vap_pressure, PS.get_sat_vap_pressure_liquid_water, C8corr]
  refine ⟨?_, ?_, by norm_num, ?_⟩
  · unfold PS.HumidAirState.from_t_dry_bulb_hum_ratio
    rw [if_pos ⟨by norm_num, not_isclose_zero_right (by norm_num)⟩]
  · unfold PS.HumidAirState.from_hum_ratio_enthalpy
    rw [show PS.get_vap_press_from_hum_ratio (1/10) 1000 = .ok (20000000/144389) by
        norm_num [PS.get_vap_press_from_hum_ratio, PS.vapF],
      bindE_ok, if_neg (by norm_num)]
    rw [show PS.get_t_dew_point_from_vap_pressure C8corr (20000000/144389) = .ok 5 by
        unfold PS.get_t_dew_point_from_vap_pressure PS.dew_val
        rw [if_neg (by norm_num), if_neg (not_isclose_zero_left (by norm_num))]
        rfl,
      bindE_ok]
    have ht : C8corr.tFromTotEnthalpy (1/10) (C8hin / (1 + 1/10)) 1000 = 20 := rfl
    rw [ht]
    rw [show PS.get_rel_hum_from_vap_pressure C8corr 20 (20000000/144389)
          = .ok (200000/144389) by
        unfold PS.get_rel_hum_from_vap_pressure
        rw [if_neg (by norm_num), hsvp, bindE_ok, if_neg (by norm_num)]
        norm_num,
      bindE_ok]
    rw [show PS.get_moist_air_volume 20 (1/10) 1000
          = .ok (PS.volF 20 (1/10) 1000) by
        norm_num [PS.get_moist_air_volume],
      bindE_ok]
    rfl
  · have hws : PS.get_sat_hum_ratio C8corr 20 1000 = .ok (some (13821/200000)) := by
      unfold PS.get_sat_hum_ratio
      rw [hsvp, bindE_ok, if_neg (by norm_num), if_neg (by norm_num)]
      norm_num
    unfold PS.get_tot_enthalpy_air_water_mix
    rw [hws, bindE_ok]
    simp only [PS.tot_mix_with_sat]
    rw [if_neg (by norm_num)]
    unfold PS.get_moist_air_enthalpy
    rw [if_neg (by norm_num), bindE_ok, if_pos (by norm_num)]
    unfold PS.get_enthalpy_water_liquid
    rw [if_neg (by norm_num), bindE_ok, if_neg (by norm_num)]
    norm_num [PS.moistF, PS.enthWaterLiquidF, C8hin]

/-- Witness for C8 at the spec's probe values: relative humidity 1.5 and
humidity ratio −0.001 are rejected, and a successfully constructed
(T, rel-hum) state at rh = 0.5 satisfies the bounds. -/
theorem C8_validation_and_clamping_witness :
    PS.HumidAirState.from_t_dry_bulb_rel_hum C8corr 20 (3/2) 1000
      = .error (.valueError .relHumRange)
    ∧ PS.HumidAirState.from_t_dry_bulb_hum_ratio C8corr 20 (-1/1000) 1000
      = .error (.valueError .negHumRatio) := by
  exact ⟨(C8_validation_and_clamping.1 C8corr 20 (3/2) 1000 (by norm_num)),
    (C8_validation_and_clamping.2.1 C8corr 20 (-1/1000) 1000 (by norm_num))⟩

theorem isclose_iff_of_le {a b : ℚ} (hb : 0 ≤ b) (hab : b ≤ a) :
    isclose a b ↔ a - b ≤ 0.000000001 * a := by
  unfold isclose
  rw [abs_of_nonneg (by linarith : (0:ℚ) ≤ a - b), abs_of_nonneg hb,
    abs_of_nonneg (le_trans hb hab), max_eq_left hab]

namespace PS

/-!
Evaluation lemmas for the success paths of the newer state layer, and
the round-trip analysis.
-/

/-- The effective relative humidity after the `math.isclose` boundary
clamping performed by `get_vap_pres_from_rel_hum`. -/
def rhEff (rel_hum : ℚ) : ℚ :=
  if isclose 0 rel_hum then 0 else if isclose 1 rel_hum then 1 else rel_hum

/-- The humidity ratio computed by `from_t_dry_bulb_rel_hum` from a
saturation pressure `s`, total pressure `p` and relative humidity. -/
def hrOf (s p rel_hum : ℚ) : ℚ :=
  0.621945 * (rhEff rel_hum * s) / (p - rhEff rel_hum * s)

theorem rhEff_nonneg {rh : ℚ} (h0 : 0 ≤ rh) : 0 ≤ rhEff rh := by
  unfold rhEff
  split_ifs <;> norm_num
  exact h0

theorem rhEff_le_one {rh : ℚ} (h1 : rh ≤ 1) : rhEff rh ≤ 1 := by
  unfold rhEff
  split_ifs <;> norm_num
  exact h1

theorem rhEff_close {rh : ℚ} (h0 : 0 ≤ rh) (h1 : rh ≤ 1) :
    |rhEff rh - rh| ≤ 0.000001 * rh := by
  unfold rhEff
  split_ifs with hc1 hc2
  · rw [isclose_zero_left_iff.mp hc1]
    simp
  · have habs : |1 - rh| ≤ 0.000000001 := by
      have h := hc2
      unfold isclose at h
      rw [abs_one, abs_of_nonneg h0, max_eq_left h1, mul_one] at h
      exact h
    rw [abs_le] at habs
    rw [abs_of_nonneg (by linarith : (0:ℚ) ≤ 1 - rh)]
    linarith
  · simp
    positivity

theorem get_vap_pres_from_rel_hum_ok (C : Corr) {t rh s : ℚ}
    (h0 : 0 ≤ rh) (h1 : rh ≤ 1) (hs : get_sat_vap_pressure C t = .ok s) :
    get_vap_pres_from_rel_hum C t rh = .ok (rhEff rh * s) := by
  unfold get_vap_pres_from_rel_hum rhEff
  split_ifs with hc1 hc2 hc3
  · rw [hs, bindE_ok]
  · rw [hs, bindE_ok]
  · rcases hc3 with h | h <;> linarith
  · rw [hs, bindE_ok]

theorem get_hum_ratio_from_rel_hum_ok (C : Corr) {t rh p s : ℚ}
    (h0 : 0 ≤ rh) (h1 : rh ≤ 1) (hs : get_sat_vap_pressure C t = .ok s)
    (hv0 : 0 ≤ rhEff rh * s) (hvp : rhEff rh * s < p) :
    get_hum_ratio_from_rel_hum C t rh p = .ok (hrOf s p rh) := by
  unfold get_hum_ratio_from_rel_hum
  rw [if_neg (by rintro (h | h) <;> linarith),
    get_vap_pres_from_rel_hum_ok C h0 h1 hs, bindE_ok]
  unfold get_hum_ratio_from_vap_press hrOf
  rw [if_neg (by linarith), if_neg (sub_ne_zero.mpr (ne_of_gt hvp)),
    if_neg (not_lt.mpr (div_nonneg (mul_nonneg (by norm_num) hv0) (by linarith)))]

theorem vap_press_from_hum_ratio_eval {hr : ℚ} (p : ℚ) (h : 0 ≤ hr) :
    get_vap_press_from_hum_ratio hr p = .ok (vapF hr p) := by
  unfold get_vap_press_from_hum_ratio
  rw [if_neg (by linarith), if_neg (by intro hc; linarith)]

theorem vapF_nonneg_ps {hr p : ℚ} (h : 0 ≤ hr) (hp : 0 < p) : 0 ≤ vapF hr p := by
  unfold vapF
  exact div_nonneg (mul_nonneg hp.le h) (by linarith)

theorem vapF_inverse {v p : ℚ} (h0 : 0 ≤ v) (h1 : v < p) :
    vapF (0.621945 * v / (p - v)) p = v := by
  have hp : 0 < p := lt_of_le_of_lt h0 h1
  have hpv : p - v ≠ 0 := sub_ne_zero.mpr (ne_of_gt h1)
  have hden : (0.621945 : ℚ) + 0.621945 * v / (p - v) ≠ 0 := by
    have hq : (0:ℚ) ≤ 0.621945 * v / (p - v) :=
      div_nonneg (mul_nonneg (by norm_num) h0) (by linarith)
    intro hc
    linarith
  unfold vapF
  rw [div_eq_iff hden]
  field_simp
  ring

theorem get_t_dew_point_ok (C : Corr) {vp : ℚ} (h : 0 ≤ vp) :
    get_t_dew_point_from_vap_pressure C vp = .ok (dew_val C vp) := by
  unfold get_t_dew_point_from_vap_pressure
  rw [if_neg (not_lt.mpr h)]

theorem rel_hum_from_vap_pressure_eval (C : Corr) {t vp s : ℚ} (h : 0 ≤ vp)
    (hs : get_sat_vap_pressure C t = .ok s) (hs0 : s ≠ 0) :
    get_rel_hum_from_vap_pressure C t vp = .ok (vp / s) := by
  unfold get_rel_hum_from_vap_pressure
  rw [if_neg (by linarith), hs, bindE_ok, if_neg hs0]

theorem moist_air_enthalpy_eval {t hr : ℚ} (h : 0 ≤ hr) :
    get_moist_air_enthalpy t hr = .ok (moistF t hr) := by
  unfold get_moist_air_enthalpy
  rw [if_neg (by linarith)]

theorem moist_air_volume_eval {t hr p : ℚ} (h : 0 ≤ hr) (hp : p ≠ 0) :
    get_moist_air_volume t hr p = .ok (volF t hr p) := by
  unfold get_moist_air_volume
  rw [if_neg (by linarith), if_neg hp]

/-- Full evaluation of `from_t_dry_bulb_rel_hum` on its success path. -/
theorem from_t_dry_bulb_rel_hum_ok (C : Corr) {t rh p s : ℚ}
    (h0 : 0 ≤ rh) (h1 : rh ≤ 1) (hs : get_sat_vap_pressure C t = .ok s)
    (hs0 : 0 ≤ s) (hvp : rhEff rh * s < p) :
    HumidAirState.from_t_dry_bulb_rel_hum C t rh p
      = .ok ⟨p, hrOf s p rh, t, get_t_wet_bulb C t (hrOf s p rh) p,
          dew_val C (vapF (hrOf s p rh) p), rh, vapF (hrOf s p rh) p,
          moistF t (hrOf s p rh), volF t (hrOf s p rh) p⟩ := by
  have hv0 : 0 ≤ rhEff rh * s := mul_nonneg (rhEff_nonneg h0) hs0
  have hp : 0 < p := lt_of_le_of_lt hv0 hvp
  have hhr0 : 0 ≤ hrOf s p rh := by
    unfold hrOf
    exact div_nonneg (mul_nonneg (by norm_num) hv0) (by linarith)
  unfold HumidAirState.from_t_dry_bulb_rel_hum
  rw [if_neg (by rintro ⟨ha, hb⟩; linarith),
    get_hum_ratio_from_rel_hum_ok C h0 h1 hs hv0 hvp, bindE_ok,
    vap_press_from_hum_ratio_eval p hhr0, bindE_ok,
    get_t_dew_point_ok C (vapF_nonneg_ps hhr0 hp), bindE_ok,
    moist_air_enthalpy_eval hhr0, bindE_ok,
    moist_air_volume_eval hhr0 (ne_of_gt hp), bindE_ok]

/-- Full evaluation of `from_t_dry_bulb_hum_ratio` on the success path
without clamping (computed relative humidity at most 1). -/
theorem from_t_dry_bulb_hum_ratio_eval (C : Corr) {t hr p s : ℚ}
    (hhr : 0 ≤ hr) (hs : get_sat_vap_pressure C t = .ok s) (hs0 : 0 < s)
    (hp : 0 < p) (hrel : vapF hr p / s ≤ 1) :
    HumidAirState.from_t_dry_bulb_hum_ratio C t hr p
      = .ok ⟨p, hr, t, get_t_wet_bulb C t hr p,
          dew_val C (vapF hr p), vapF hr p / s, vapF hr p,
          moistF t hr, volF t hr p⟩ := by
  unfold HumidAirState.from_t_dry_bulb_hum_ratio
  rw [if_neg (by rintro ⟨ha, hb⟩; linarith), if_neg (not_lt.mpr hhr),
    vap_press_from_hum_ratio_eval p hhr, bindE_ok,
    rel_hum_from_vap_pressure_eval C (vapF_nonneg_ps hhr hp) hs (ne_of_gt hs0),
    bindE_ok,
    if_neg (by rintro ⟨ha, hb⟩; exact absurd ha (not_lt.mpr hrel)),
    get_t_dew_point_ok C (vapF_nonneg_ps hhr hp), bindE_ok,
    moist_air_enthalpy_eval hhr, bindE_ok,
    moist_air_volume_eval hhr (ne_of_gt hp), bindE_ok,
    if_neg (not_lt.mpr hrel)]

/-- Full evaluation of `from_hum_ratio_enthalpy` on its success path,
with the inverse-enthalpy oracle's value named `t`. -/
theorem from_hum_ratio_enthalpy_ok (C : Corr) {hr h p t s : ℚ}
    (hhr : 0 ≤ hr) (hp : 0 < p)
    (ht : C.tFromTotEnthalpy hr (h / (1 + hr)) p = t)
    (hs : get_sat_vap_pressure C t = .ok s) (hs0 : s ≠ 0) :
    HumidAirState.from_hum_ratio_enthalpy C hr h p
      = .ok ⟨p, hr, t, get_t_wet_bulb C t hr p,
          dew_val C (vapF hr p), vapF hr p / s, vapF hr p, h,
          volF t hr p⟩ := by
  unfold HumidAirState.from_hum_ratio_enthalpy
  rw [vap_press_from_hum_ratio_eval p hhr, bindE_ok,
    if_neg (by intro hc; linarith), ht,
    get_t_dew_point_ok C (vapF_nonneg_ps hhr hp), bindE_ok,
    rel_hum_from_vap_pressure_eval C (vapF_nonneg_ps hhr hp) hs hs0, bindE_ok,
    moist_air_volume_eval hhr (ne_of_gt hp), bindE_ok]

end PS

/-! ### Claim C5 -/

/-- C5: round-trip equivalence of the three `HumidAirState` factory
constructors, in the embedding's exact-rational semantics (exact
equality implies the claim's 1e-6 relative tolerance).  Hypotheses: a
valid relative humidity, positive saturation pressure below total
pressure, and that the inverse-enthalpy root search returns a root
(`hroot`) of an equation whose root is unique (`huniq`) — both hold for
the real solver on its monotone bracket.  Then (T, rel-hum) →
(T, hum-ratio) reproduces the humidity ratio and specific enthalpy
exactly, and (hum-ratio, enthalpy) reproduces T exactly and the
relative humidity up to the boundary clamping, which stays within the
claimed 1e-6 relative tolerance. -/
theorem C5_round_trip (C : PS.Corr) (t rh p s : ℚ)
    (h0 : 0 ≤ rh) (h1 : rh ≤ 1)
    (hs : PS.get_sat_vap_pressure C t = .ok s)
    (hs0 : 0 < s) (hsp : s < p)
    (hroot : PS.get_tot_enthalpy_air_water_mix C (PS.hrOf s p rh)
        (C.tFromTotEnthalpy (PS.hrOf s p rh)
          (PS.moistF t (PS.hrOf s p rh) / (1 + PS.hrOf s p rh)) p) p
      = .ok (PS.moistF t (PS.hrOf s p rh) / (1 + PS.hrOf s p rh)))
    (huniq : ∀ u, PS.get_tot_enthalpy_air_water_mix C (PS.hrOf s p rh) u p
        = .ok (PS.moistF t (PS.hrOf s p rh) / (1 + PS.hrOf s p rh)) → u = t) :
    ∃ s1, PS.HumidAirState.from_t_dry_bulb_rel_hum C t rh p = .ok s1
      ∧ (PS.HumidAirState.from_t_dry_bulb_hum_ratio C t s1.hum_ratio p).map
          (fun s2 => (s2.hum_ratio, s2.moist_air_enthalpy))
        = .ok (s1.hum_ratio, s1.moist_air_enthalpy)
      ∧ (PS.HumidAirState.from_hum_ratio_enthalpy C s1.hum_ratio
          s1.moist_air_enthalpy p).map (fun s3 => s3.t_dry_bulb) = .ok t
      ∧ (PS.HumidAirState.from_hum_ratio_enthalpy C s1.hum_ratio
          s1.moist_air_enthalpy p).map (fun s3 => |s3.rel_hum - rh|)
        = .ok |PS.rhEff rh - rh|
      ∧ |PS.rhEff rh - rh| ≤ 0.000001 * rh := by
  have hv0 : 0 ≤ PS.rhEff rh * s := mul_nonneg (PS.rhEff_nonneg h0) hs0.le
  have hvlt : PS.rhEff rh * s < p :=
    lt_of_le_of_lt (mul_le_of_le_one_left hs0.le (PS.rhEff_le_one h1)) hsp
  have hp : 0 < p := lt_of_le_of_lt hv0 hvlt
  have hhr0 : 0 ≤ PS.hrOf s p rh := by
    unfold PS.hrOf
    exact div_nonneg (mul_nonneg (by norm_num) hv0) (by linarith)
  have hvap : PS.vapF (PS.hrOf s p rh) p = PS.rhEff rh * s := by
    unfold PS.hrOf
    exact PS.vapF_inverse hv0 hvlt
  have hrel : PS.vapF (PS.hrOf s p rh) p / s = PS.rhEff rh := by
    rw [hvap, mul_div_cancel_right₀ _ (ne_of_gt hs0)]
  have hF1 := PS.from_t_dry_bulb_rel_hum_ok C h0 h1 hs hs0.le hvlt
  refine ⟨_, hF1, ?_, ?_, ?_, PS.rhEff_close h0 h1⟩
  · show (PS.HumidAirState.from_t_dry_bulb_hum_ratio C t (PS.hrOf s p rh) p).map
        (fun s2 => (s2.hum_ratio, s2.moist_air_enthalpy))
      = .ok (PS.hrOf s p rh, PS.moistF t (PS.hrOf s p rh))
    rw [PS.from_t_dry_bulb_hum_ratio_eval C hhr0 hs hs0 hp (le_of_eq_of_le hrel
      (PS.rhEff_le_one h1))]
    rfl
  · show (PS.HumidAirState.from_hum_ratio_enthalpy C (PS.hrOf s p rh)
        (PS.moistF t (PS.hrOf s p rh)) p).map (fun s3 => s3.t_dry_bulb) = .ok t
    rw [PS.from_hum_ratio_enthalpy_ok C hhr0 hp (huniq _ hroot) hs (ne_of_gt hs0)]
    rfl
  · show (PS.HumidAirState.from_hum_ratio_enthalpy C (PS.hrOf s p rh)
        (PS.moistF t (PS.hrOf s p rh)) p).map (fun s3 => |s3.rel_hum - rh|)
      = .ok |PS.rhEff rh - rh|
    rw [PS.from_hum_ratio_enthalpy_ok C hhr0 hp (huniq _ hroot) hs (ne_of_gt hs0)]
    simp only [Except.map]
    rw [hrel]

/-- Correlation instance for the C5 witness: constant saturation
pressure 100 Pa on both branches, inverse-enthalpy oracle returning the
exact root 20 °C. -/
def C5corr : PS.Corr := ⟨fun _ => 100, fun _ => 100, fun _ => 5, fun _ _ _ => 20, fun _ _ _ => 20⟩

theorem C5_hrOf_value : PS.hrOf 100 1000 (1/2) = 124389/3800000 := by
  unfold PS.hrOf PS.rhEff
  rw [if_neg (not_isclose_zero_left (by norm_num)),
    if_neg (by rw [isclose_iff_of_le (by norm_num) (by norm_num)]; norm_num)]
  norm_num

theorem C5_svp_value : PS.get_sat_vap_pressure C5corr 20 = .ok 100 := by
  norm_num [PS.get_sat_vap_pressure, PS.get_sat_vap_pressure_liquid_water, C5corr]

theorem C5_uniq : ∀ u, PS.get_tot_enthalpy_air_water_mix C5corr (PS.hrOf 100 1000 (1/2)) u 1000
    = .ok (PS.moistF 20 (PS.hrOf 100 1000 (1/2)) / (1 + PS.hrOf 100 1000 (1/2)))
    → u = 20 := by
  intro u hu
  rw [C5_hrOf_value] at hu
  by_cases hdom : u < -223.15 ∨ 373.9 < u
  · exfalso
    unfold PS.get_tot_enthalpy_air_water_mix PS.get_sat_hum_ratio
      PS.get_sat_vap_pressure at hu
    rw [if_pos hdom] at hu
    simp [bindE] at hu
  · push_neg at hdom
    have hsvpu : PS.get_sat_vap_pressure C5corr u = .ok 100 := by
      unfold PS.get_sat_vap_pressure PS.get_sat_vap_pressure_liquid_water
        PS.get_sat_vap_pressure_water_ice
      rw [if_neg (by rintro (h | h) <;> linarith)]
      split_ifs with hb h2 h3
      · exact absurd h2 (by rintro (h | h) <;> linarith)
      · rfl
      · exact absurd h3 (by push_neg at hb; rintro (h | h) <;> linarith)
      · rfl
    have hwsu : PS.get_sat_hum_ratio C5corr u 1000 = .ok (some (13821/200000)) := by
      unfold PS.get_sat_hum_ratio
      rw [hsvpu, bindE_ok, if_neg (by norm_num), if_neg (by norm_num)]
      norm_num
    unfold PS.get_tot_enthalpy_air_water_mix at hu
    rw [hwsu, bindE_ok] at hu
    simp only [PS.tot_mix_with_sat] at hu
    rw [if_pos (by norm_num : (124389:ℚ)/3800000 ≤ 13821/200000)] at hu
    unfold PS.get_moist_air_enthalpy at hu
    rw [if_neg (by norm_num), bindE_ok, if_neg (by norm_num)] at hu
    injection hu with hu
    have hne : (1:ℚ) + 124389/3800000 ≠ 0 := by norm_num
    unfold PS.moistF at hu
    field_simp at hu
    linarith

theorem C5_root :
    PS.get_tot_enthalpy_air_water_mix C5corr (PS.hrOf 100 1000 (1/2))
      (C5corr.tFromTotEnthalpy (PS.hrOf 100 1000 (1/2))
        (PS.moistF 20 (PS.hrOf 100 1000 (1/2)) / (1 + PS.hrOf 100 1000 (1/2))) 1000)
      1000
    = .ok (PS.moistF 20 (PS.hrOf 100 1000 (1/2)) / (1 + PS.hrOf 100 1000 (1/2))) := by
  show PS.get_tot_enthalpy_air_water_mix C5corr (PS.hrOf 100 1000 (1/2)) 20 1000
    = .ok (PS.moistF 20 (PS.hrOf 100 1000 (1/2)) / (1 + PS.hrOf 100 1000 (1/2)))
  rw [C5_hrOf_value]
  have hws : PS.get_sat_hum_ratio C5corr 20 1000 = .ok (some (13821/200000)) := by
    unfold PS.get_sat_hum_ratio
    rw [C5_svp_value, bindE_ok, if_neg (by norm_num), if_neg (by norm_num)]
    norm_num
  unfold PS.get_tot_enthalpy_air_water_mix
  rw [hws, bindE_ok]
  simp only [PS.tot_mix_with_sat]
  rw [if_pos (by norm_num : (124389:ℚ)/3800000 ≤ 13821/200000)]
  unfold PS.get_moist_air_enthalpy
  rw [if_neg (by norm_num), bindE_ok, if_neg (by norm_num)]

/-- Witness for C5: the full round trip at (20 °C, rh = 0.5, 1000 Pa)
under `C5corr`. -/
theorem C5_round_trip_witness :
    ∃ s1, PS.HumidAirState.from_t_dry_bulb_rel_hum C5corr 20 (1/2) 1000 = .ok s1
      ∧ (PS.HumidAirState.from_t_dry_bulb_hum_ratio C5corr 20 s1.hum_ratio 1000).map
          (fun s2 => (s2.hum_ratio, s2.moist_air_enthalpy))
        = .ok (s1.hum_ratio, s1.moist_air_enthalpy)
      ∧ (PS.HumidAirState.from_hum_ratio_enthalpy C5corr s1.hum_ratio
          s1.moist_air_enthalpy 1000).map (fun s3 => s3.t_dry_bulb) = .ok 20
      ∧ (PS.HumidAirState.from_hum_ratio_enthalpy C5corr s1.hum_ratio
          s1.moist_air_enthalpy 1000).map (fun s3 => |s3.rel_hum - 1/2|)
        = .ok |PS.rhEff (1/2) - 1/2|
      ∧ |PS.rhEff (1/2) - 1/2| ≤ 0.000001 * (1/2) :=
  C5_round_trip C5corr 20 (1/2) 1000 100 (by norm_num) (by norm_num)
    C5_svp_value (by norm_num) (by norm_num) C5_root C5_uniq
